import Mathlib

/-!
Verification of the discord-archive ingest pipeline.

This file gives a shallow embedding, in Lean, of the core functions of the
repository (message mappers and NUL sanitization, the batch persistence
repository, the checkpoint store, the backfill engine, the HTTP retry loop,
the permission calculator, the orchestrator error propagation, and the
channel upsert), and proves or refutes the frozen specification claims
about them.

Modelling conventions:
- Python strings are char lists; removing every occurrence of the
  one-character substring chr(0) is a filter on the char list.
- Python dicts from the wire are a JSON value type; dict iteration order is
  the field-list order.
- Database tables are functions from primary key to an optional row;
  the SQL upsert statements become pointwise updates of those functions.
- Async functions have no concurrency in this pipeline (single account,
  sequential awaits), so they embed as pure state-passing functions.
- Wall-clock values (last_synced_at timestamps, real sleeping) are not
  modelled; sleep durations are recorded as rational numbers.
-/

namespace DiscordArchive

/-- The zero byte chr(0) that PostgreSQL rejects inside text. -/
def nulChar : Char := Char.ofNat 0

/-- Python strings, modelled as lists of characters. -/
abbrev PyStr := List Char

/-- JSON values as returned by the REST API (message DTOs and friends).
Numbers are restricted to naturals: every numeric field the mappers read is
a snowflake id, count or flag set. -/
inductive Json where
  | str (s : PyStr)
  | num (n : Nat)
  | bool (b : Bool)
  | null
  | arr (items : List Json)
  | obj (fields : List (PyStr × Json))

/-- str.replace(chr(0), empty) deletes every zero byte: a filter. -/
def sanitizeStr (s : PyStr) : PyStr := s.filter (fun c => c ≠ nulChar)

mutual

/-- Embedding of mappers.message._sanitize_null_bytes: strings are cleaned,
dicts and lists are rebuilt recursively (note: dict KEYS are kept as-is,
exactly as in the source, which only recurses into values). The function
returns a new value and does not mutate its argument. -/
def sanitize : Json → Json
  | .str s => .str (sanitizeStr s)
  | .num n => .num n
  | .bool b => .bool b
  | .null => .null
  | .arr items => .arr (sanitizeList items)
  | .obj fields => .obj (sanitizeFields fields)

def sanitizeList : List Json → List Json
  | [] => []
  | j :: rest => sanitize j :: sanitizeList rest

def sanitizeFields : List (PyStr × Json) → List (PyStr × Json)
  | [] => []
  | (k, v) :: rest => (k, sanitize v) :: sanitizeFields rest

end

/-- A char list is free of zero bytes. -/
def strNoNul (s : PyStr) : Bool := s.all (fun c => c ≠ nulChar)

mutual

/-- All string VALUES reachable inside a JSON value are free of zero bytes
(dict keys are deliberately not inspected, mirroring what the sanitizer
can actually guarantee). -/
def valuesNoNul : Json → Bool
  | .str s => strNoNul s
  | .num _ => true
  | .bool _ => true
  | .null => true
  | .arr items => valuesNoNulList items
  | .obj fields => valuesNoNulFields fields

def valuesNoNulList : List Json → Bool
  | [] => true
  | j :: rest => valuesNoNul j && valuesNoNulList rest

def valuesNoNulFields : List (PyStr × Json) → Bool
  | [] => true
  | (_, v) :: rest => valuesNoNul v && valuesNoNulFields rest

end

theorem sanitizeStr_noNul (s : PyStr) : strNoNul (sanitizeStr s) = true := by
  simp only [strNoNul, sanitizeStr, List.all_eq_true, decide_eq_true_eq]
  intro c hc
  exact of_decide_eq_true (List.mem_filter.mp hc).2

mutual

/-- The sanitizer establishes the values-clean property everywhere. -/
theorem sanitize_valuesNoNul : ∀ j, valuesNoNul (sanitize j) = true
  | .str s => by simp [sanitize, valuesNoNul, sanitizeStr_noNul]
  | .num n => rfl
  | .bool b => rfl
  | .null => rfl
  | .arr items => by simp [sanitize, valuesNoNul, sanitizeList_valuesNoNul items]
  | .obj fields => by simp [sanitize, valuesNoNul, sanitizeFields_valuesNoNul fields]

theorem sanitizeList_valuesNoNul : ∀ l, valuesNoNulList (sanitizeList l) = true
  | [] => rfl
  | j :: rest => by
      simp [sanitizeList, valuesNoNulList, sanitize_valuesNoNul j,
        sanitizeList_valuesNoNul rest]

theorem sanitizeFields_valuesNoNul : ∀ l, valuesNoNulFields (sanitizeFields l) = true
  | [] => rfl
  | (k, v) :: rest => by
      simp [sanitizeFields, valuesNoNulFields, sanitize_valuesNoNul v,
        sanitizeFields_valuesNoNul rest]

end

/-! ### Python-side JSON access helpers

These model the dict/str/int operations the mappers perform. A returned
none models a raised exception (KeyError, ValueError, TypeError); the
mappers therefore embed as Option-valued functions. -/

/-- dict[k] / dict.get(k): first binding wins (dict keys are unique). -/
def Json.get? (j : Json) (k : PyStr) : Option Json :=
  match j with
  | .obj fields => fields.lookup k
  | _ => none

/-- dict.get(k, default). A present JSON null is Python None, which is
returned as-is (it is the .null value here). -/
def Json.getJ (j : Json) (k : PyStr) (d : Json) : Json :=
  (j.get? k).getD d

/-- dict.get(k) for nullable JSON columns: a missing key and a present
null both store NULL. -/
def Json.getOpt (j : Json) (k : PyStr) : Option Json :=
  match j.get? k with
  | some .null => none
  | r => r

/-- Python truthiness of a decoded JSON value. -/
def Json.truthy : Json → Bool
  | .str s => !s.isEmpty
  | .num n => decide (n ≠ 0)
  | .bool b => b
  | .null => false
  | .arr l => !l.isEmpty
  | .obj f => !f.isEmpty

/-- A nonempty all-digit string (the only str shape int() accepts here). -/
def decDigits (s : PyStr) : Bool := !s.isEmpty && s.all (fun c => c.isDigit)

def strToNat (s : PyStr) : Nat := s.foldl (fun a c => a * 10 + (c.toNat - 48)) 0

/-- int(v) for the values the wire can carry; none models ValueError /
TypeError. IDs are nonnegative so Nat suffices. -/
def pyInt? : Json → Option Nat
  | .num n => some n
  | .str s => if decDigits s then some (strToNat s) else none
  | .bool b => some (if b then 1 else 0)
  | _ => none

/-- data.get(k, d) coerced into a boolean column (wire payloads carry
booleans; other values take their truthiness). -/
def Json.getBoolD (j : Json) (k : PyStr) (d : Bool) : Bool :=
  match j.get? k with
  | some v => v.truthy
  | none => d

/-- data.get(k, d) for an integer column with default. -/
def Json.getNatD (j : Json) (k : PyStr) (d : Nat) : Nat :=
  match j.get? k with
  | some v => (pyInt? v).getD d
  | none => d

/-- int(data[k2...]) if data.get(k) else None, the guarded-id idiom of the
mappers: outer none is a raised exception, inner none is SQL NULL. -/
def Json.truthyNat? (j : Json) (k : PyStr) : Option (Option Nat) :=
  match j.get? k with
  | some v => if v.truthy then (pyInt? v).map some else some none
  | none => some none

/-- A text column read via dict.get: missing/null → NULL; non-strings do
not occur on these fields and are treated as a mapping failure. -/
def Json.getStrOpt? (j : Json) (k : PyStr) : Option (Option PyStr) :=
  match j.get? k with
  | some (.str s) => some (some s)
  | some .null => some none
  | some _ => none
  | none => some none

/-- data.get(k, default-string) for the content column. -/
def Json.getStrD? (j : Json) (k : PyStr) (d : PyStr) : Option PyStr :=
  match j.get? k with
  | some (.str s) => some s
  | some _ => none
  | none => some d

/-- utils.time.parse_iso8601, with the datetime itself modelled as the
ISO text (calendar arithmetic is irrelevant to every claim): falsy input
gives None, a nonempty string parses, anything else raises. -/
def parse_iso8601 (value : Option Json) : Option (Option PyStr) :=
  match value with
  | none => some none
  | some (.str s) => if s.isEmpty then some none else some (some s)
  | some v => if v.truthy then none else some none

/-! ### Mapped ORM rows (db.models) -/

/-- Message ORM row, one field per mapped column of map_message. -/
structure MessageRow where
  message_id : Nat
  channel_id : Nat
  author_id : Nat
  guild_id : Option Nat
  content : PyStr
  created_at : Option PyStr
  edited_timestamp : Option PyStr
  mtype : Nat
  tts : Bool
  flags : Nat
  pinned : Bool
  mention_everyone : Bool
  mentions : List Nat
  mention_roles : List Nat
  mention_channels : Option Json
  webhook_id : Option Nat
  application : Option Json
  application_id : Option Nat
  message_reference : Option Json
  referenced_message_id : Option Nat
  message_snapshots : Option Json
  interaction_metadata : Option Json
  thread : Option Json
  embeds : Json
  components : Option Json
  sticker_items : Option Json
  poll : Option Json
  activity : Option Json
  call : Option Json
  role_subscription_data : Option Json
  raw : Json

/-- Attachment ORM row. -/
structure AttachmentRow where
  attachment_id : Nat
  message_id : Nat
  filename : PyStr
  description : Option Json
  content_type : Option Json
  size : Nat
  url : PyStr
  proxy_url : Option Json
  height : Option Json
  width : Option Json
  duration_secs : Option Json
  waveform : Option Json
  ephemeral : Option Json
  flags : Option Json
  title : Option Json
  raw : Json

/-- Reaction ORM row. -/
structure ReactionRow where
  message_id : Nat
  emoji_key : PyStr
  emoji_id : Option Nat
  emoji_name : Option PyStr
  emoji_animated : Option Bool
  count : Nat
  count_details : Option Json
  burst_colors : Option Json
  raw : Json

/-- User ORM row. -/
structure UserRow where
  user_id : Nat
  username : Option PyStr
  discriminator : Option PyStr
  global_name : Option PyStr
  avatar : Option PyStr
  avatar_decoration_data : Option Json
  banner : Option PyStr
  accent_color : Option Json
  bot : Bool
  system : Bool
  public_flags : Nat
  premium_type : Option Json
  raw : Json

/-- [int(u[id-key]) for u in data.get(mentions-key, [])]. -/
def mentionIds? (data : Json) : Option (List Nat) :=
  match data.getJ ("mentions".toList) (.arr []) with
  | .arr us => us.mapM (fun u => (u.get? ("id".toList)).bind pyInt?)
  | _ => none

/-- [int(r) for r in data.get(mention-roles-key, [])]. -/
def mentionRoleIds? (data : Json) : Option (List Nat) :=
  match data.getJ ("mention_roles".toList) (.arr []) with
  | .arr rs => rs.mapM pyInt?
  | _ => none

/-- The referenced_message_id expression of map_message. -/
def refMsgId? (data : Json) : Option (Option Nat) :=
  match data.get? ("message_reference".toList) with
  | some mr =>
      if mr.truthy then
        match mr.get? ("message_id".toList) with
        | some mid => if mid.truthy then (pyInt? mid).map some else some none
        | none => some none
      else some none
  | none => some none

/-- data.get(a-key) or data.get(b-key): Python or takes the second operand
whenever the first is falsy (missing keys give None, which is falsy). -/
def interactionMeta (data : Json) : Option Json :=
  match data.get? ("interaction_metadata".toList) with
  | some v => if v.truthy then some v else data.getOpt ("interaction".toList)
  | none => data.getOpt ("interaction".toList)

/-- Embedding of mappers.message.map_message. The incoming dict is
sanitized into a fresh value first; every field below reads from the
sanitized copy, and the raw column stores the sanitized copy. -/
def msgGuildId? (data : Json) (guild_id : Option Nat) : Option (Option Nat) :=
  match data.get? ("guild_id".toList) with
  | some v => if v.truthy then (pyInt? v).map some else some guild_id
  | none => some guild_id

/-- The message record once every fallible extraction has succeeded; the
remaining columns read from the sanitized dict directly. -/
def mkMessageRow (data : Json) (mid cid aid : Nat) (msg_guild_id : Option Nat)
    (content : PyStr) (created_at edited : Option PyStr)
    (mention_ids mention_role_ids : List Nat)
    (webhook_id application_id referenced : Option Nat) : MessageRow :=
  { message_id := mid
    channel_id := cid
    author_id := aid
    guild_id := msg_guild_id
    content := content
    created_at := created_at
    edited_timestamp := edited
    mtype := data.getNatD ("type".toList) 0
    tts := data.getBoolD ("tts".toList) false
    flags := data.getNatD ("flags".toList) 0
    pinned := data.getBoolD ("pinned".toList) false
    mention_everyone := data.getBoolD ("mention_everyone".toList) false
    mentions := mention_ids
    mention_roles := mention_role_ids
    mention_channels := data.getOpt ("mention_channels".toList)
    webhook_id := webhook_id
    application := data.getOpt ("application".toList)
    application_id := application_id
    message_reference := data.getOpt ("message_reference".toList)
    referenced_message_id := referenced
    message_snapshots := data.getOpt ("message_snapshots".toList)
    interaction_metadata := interactionMeta data
    thread := data.getOpt ("thread".toList)
    embeds := data.getJ ("embeds".toList) (.arr [])
    components := data.getOpt ("components".toList)
    sticker_items := data.getOpt ("sticker_items".toList)
    poll := data.getOpt ("poll".toList)
    activity := data.getOpt ("activity".toList)
    call := data.getOpt ("call".toList)
    role_subscription_data := data.getOpt ("role_subscription_data".toList)
    raw := data }

/-- int(data[id-key]), int(data[channel-id-key]), int(data[author][id]). -/
def msgIds? (data : Json) : Option (Nat × Nat × Nat) := do
  let mid ← (data.get? ("id".toList)).bind pyInt?
  let cid ← (data.get? ("channel_id".toList)).bind pyInt?
  let author ← data.get? ("author".toList)
  let aid ← (author.get? ("id".toList)).bind pyInt?
  some (mid, cid, aid)

/-- parse_iso8601 of the required timestamp and the optional edit stamp. -/
def msgTimes? (data : Json) : Option (Option PyStr × Option PyStr) := do
  let ts ← data.get? ("timestamp".toList)
  let created_at ← parse_iso8601 (some ts)
  let edited ← parse_iso8601 (data.get? ("edited_timestamp".toList))
  some (created_at, edited)

/-- The three guarded optional ids of map_message. -/
def msgOptIds? (data : Json) : Option (Option Nat × Option Nat × Option Nat) := do
  let webhook_id ← data.truthyNat? ("webhook_id".toList)
  let application_id ← data.truthyNat? ("application_id".toList)
  let referenced ← refMsgId? data
  some (webhook_id, application_id, referenced)

def map_message (dataOrig : Json) (guild_id : Option Nat) : Option MessageRow := do
  let data := sanitize dataOrig
  let msg_guild_id ← msgGuildId? data guild_id
  let mention_ids ← mentionIds? data
  let mention_role_ids ← mentionRoleIds? data
  let ids ← msgIds? data
  let content ← data.getStrD? ("content".toList) []
  let times ← msgTimes? data
  let optIds ← msgOptIds? data
  some (mkMessageRow data ids.1 ids.2.1 ids.2.2 msg_guild_id content times.1 times.2
    mention_ids mention_role_ids optIds.1 optIds.2.1 optIds.2.2)

/-- Embedding of mappers.message.map_attachment. It receives the original
(unsanitized) attachment dict from map_messages. -/
def map_attachment (data : Json) (message_id : Nat) : Option AttachmentRow := do
  let attid ← (data.get? ("id".toList)).bind pyInt?
  let filename ←
    match data.get? ("filename".toList) with
    | some (.str s) => some s
    | _ => none
  let size ← (data.get? ("size".toList)).bind pyInt?
  let url ←
    match data.get? ("url".toList) with
    | some (.str s) => some s
    | _ => none
  some {
    attachment_id := attid
    message_id := message_id
    filename := filename
    description := data.getOpt ("description".toList)
    content_type := data.getOpt ("content_type".toList)
    size := size
    url := url
    proxy_url := data.getOpt ("proxy_url".toList)
    height := data.getOpt ("height".toList)
    width := data.getOpt ("width".toList)
    duration_secs := data.getOpt ("duration_secs".toList)
    waveform := data.getOpt ("waveform".toList)
    ephemeral := data.getOpt ("ephemeral".toList)
    flags := data.getOpt ("flags".toList)
    title := data.getOpt ("title".toList)
    raw := data }

/-- Embedding of mappers.message.map_reaction (original, unsanitized
reaction dict). The composite emoji key is custom:<id> for a truthy
custom-emoji id, else unicode:<name> where a missing name prints the
Python literal None into the key, exactly as the f-string does. -/
def map_reaction (data : Json) (message_id : Nat) : Option ReactionRow := do
  let emoji ← data.get? ("emoji".toList)
  let emoji_id ← emoji.truthyNat? ("id".toList)
  let emoji_name ← emoji.getStrOpt? ("name".toList)
  let emoji_animated : Option Bool :=
    match emoji.getOpt ("animated".toList) with
    | some v => some v.truthy
    | none => none
  let emoji_key : PyStr :=
    if (match emoji_id with | some n => decide (n ≠ 0) | none => false) then
      "custom:".toList ++ Nat.toDigits 10 (emoji_id.getD 0)
    else
      "unicode:".toList ++ (match emoji_name with | some s => s | none => "None".toList)
  some {
    message_id := message_id
    emoji_key := emoji_key
    emoji_id := emoji_id
    emoji_name := emoji_name
    emoji_animated := emoji_animated
    count := data.getNatD ("count".toList) 1
    count_details := data.getOpt ("count_details".toList)
    burst_colors := data.getOpt ("burst_colors".toList)
    raw := data }

/-- Embedding of mappers.user.map_user (original, unsanitized user dict). -/
def map_user (data : Json) : Option UserRow := do
  let uid ← (data.get? ("id".toList)).bind pyInt?
  let username ← data.getStrOpt? ("username".toList)
  let discriminator ← data.getStrOpt? ("discriminator".toList)
  let global_name ← data.getStrOpt? ("global_name".toList)
  let avatar ← data.getStrOpt? ("avatar".toList)
  let banner ← data.getStrOpt? ("banner".toList)
  some {
    user_id := uid
    username := username
    discriminator := discriminator
    global_name := global_name
    avatar := avatar
    avatar_decoration_data := data.getOpt ("avatar_decoration_data".toList)
    banner := banner
    accent_color := data.getOpt ("accent_color".toList)
    bot := data.getBoolD ("bot".toList) false
    system := data.getBoolD ("system".toList) false
    public_flags := data.getNatD ("public_flags".toList) 0
    premium_type := data.getOpt ("premium_type".toList)
    raw := data }

/-- Embedding of mappers.user.extract_users_from_message: the author (when
the key is present) plus every entry of the mentions array, mapped from
the original message dict. -/
def extract_users_from_message (data : Json) : Option (List UserRow) := do
  let authorUsers ←
    match data.get? ("author".toList) with
    | some a => (map_user a).map (fun u => [u])
    | none => some []
  let mentionUsers ←
    match data.getJ ("mentions".toList) (.arr []) with
    | .arr us => us.mapM map_user
    | _ => none
  some (authorUsers ++ mentionUsers)

/-- Embedding of mappers.message.map_messages: the message row is built
from the sanitized copy inside map_message, while the attachment and
reaction sublists are taken from the ORIGINAL dict of the loop variable. -/
def map_messages : List Json → Option Nat →
    Option (List MessageRow × List AttachmentRow × List ReactionRow)
  | [], _ => some ([], [], [])
  | data :: rest, guild_id => do
    let message ← map_message data guild_id
    let message_id ← (data.get? ("id".toList)).bind pyInt?
    let atts ←
      match data.getJ ("attachments".toList) (.arr []) with
      | .arr l => l.mapM (fun a => map_attachment a message_id)
      | _ => none
    let rcts ←
      match data.getJ ("reactions".toList) (.arr []) with
      | .arr l => l.mapM (fun r => map_reaction r message_id)
      | _ => none
    let (msTail, attTail, rctTail) ← map_messages rest guild_id
    some (message :: msTail, atts ++ attTail, rcts ++ rctTail)

/-! ### Repository layer (db.repositories.message_repository)

A table is a function from primary key to optional row. One INSERT ... ON
CONFLICT statement applies its rows left to right; the conflict action is
a merge function combining the existing row with the excluded row. -/

/-- Apply one row of a bulk statement to a table. -/
def upsertRow {K R : Type} [DecidableEq K] (key : R → K) (merge : R → R → R)
    (db : K → Option R) (r : R) : K → Option R :=
  fun k =>
    if k = key r then
      some (match db (key r) with | none => r | some old => merge old r)
    else db k

/-- Apply a whole bulk statement to a table. -/
def upsertFold {K R : Type} [DecidableEq K] (key : R → K) (merge : R → R → R)
    (db : K → Option R) (rows : List R) : K → Option R :=
  rows.foldl (upsertRow key merge) db

/-- The pointwise effect of a bulk statement on one key. -/
def upsertCell {R : Type} (merge : R → R → R) (v : Option R) (l : List R) : Option R :=
  l.foldl (fun v r => some (match v with | none => r | some o => merge o r)) v

theorem upsertFold_lookup {K R : Type} [DecidableEq K] (key : R → K) (merge : R → R → R)
    (rows : List R) (db : K → Option R) (k : K) :
    upsertFold key merge db rows k =
      upsertCell merge (db k) (rows.filter (fun r => key r = k)) := by
  induction rows generalizing db with
  | nil => rfl
  | cons r rest ih =>
      have hstep : upsertFold key merge db (r :: rest) k =
          upsertFold key merge (upsertRow key merge db r) rest k := rfl
      rw [hstep, ih]
      by_cases hk : key r = k
      · have hrow : upsertRow key merge db r k =
            some (match db k with | none => r | some o => merge o r) := by
          subst hk; simp [upsertRow]
        have hfilt : List.filter (fun r => decide (key r = k)) (r :: rest) =
            r :: List.filter (fun r => decide (key r = k)) rest := by
          simp [List.filter_cons, hk]
        rw [hrow, hfilt]
        rfl
      · have hrow : upsertRow key merge db r k = db k := by
          simp only [upsertRow]
          rw [if_neg (fun h => hk h.symm)]
        have hfilt : List.filter (fun r => decide (key r = k)) (r :: rest) =
            List.filter (fun r => decide (key r = k)) rest := by
          simp [List.filter_cons, hk]
        rw [hrow, hfilt]

theorem foldl_merge_concat {R : Type} (merge : R → R → R)
    (hassoc : ∀ a b c, merge (merge a b) c = merge a c) :
    ∀ (m : List R) (a x : R), (m ++ [a]).foldl merge x = merge x a := by
  intro m
  induction m using List.reverseRecOn with
  | nil => intro a x; rfl
  | append_singleton m' b ih =>
      intro a x
      rw [List.foldl_append]
      rw [ih b x]
      exact hassoc x b a

theorem upsertCell_some {R : Type} (merge : R → R → R) :
    ∀ (m : List R) (x : R), upsertCell merge (some x) m = some (m.foldl merge x) := by
  intro m
  induction m with
  | nil => intro x; rfl
  | cons r rest ih =>
      intro x
      have h1 : upsertCell merge (some x) (r :: rest) =
          upsertCell merge (some (merge x r)) rest := rfl
      rw [h1, ih]
      rfl

theorem upsertCell_idem {R : Type} (merge : R → R → R)
    (hassoc : ∀ a b c, merge (merge a b) c = merge a c)
    (hself : ∀ r, merge r r = r)
    (v : Option R) (l : List R) :
    upsertCell merge (upsertCell merge v l) l = upsertCell merge v l := by
  rcases List.eq_nil_or_concat l with rfl | ⟨m, a, rfl⟩
  · rfl
  · simp only [List.concat_eq_append]
    have hfold : ∀ x : R, (m ++ [a]).foldl merge x = merge x a :=
      foldl_merge_concat merge hassoc m a
    cases v with
    | some x =>
        rw [upsertCell_some, upsertCell_some, hfold, hfold, hassoc]
    | none =>
        cases m with
        | nil =>
            have h1 : upsertCell merge none ([] ++ [a]) = some a := rfl
            rw [h1, upsertCell_some]
            show some (merge a a) = some a
            rw [hself]
        | cons b m2 =>
            have h2 : upsertCell merge none ((b :: m2) ++ [a]) = some (merge b a) := by
              have h1 : upsertCell merge none ((b :: m2) ++ [a]) =
                  upsertCell merge (some b) (m2 ++ [a]) := rfl
              rw [h1, upsertCell_some, foldl_merge_concat merge hassoc m2 a b]
            rw [h2, upsertCell_some, hfold, hassoc]

/-- Re-applying one bulk statement is a no-op on the whole table, given
the merge function forgets intermediate merges and is self-absorbing. -/
theorem upsertFold_idem {K R : Type} [DecidableEq K] (key : R → K) (merge : R → R → R)
    (hassoc : ∀ a b c, merge (merge a b) c = merge a c)
    (hself : ∀ r, merge r r = r)
    (db : K → Option R) (rows : List R) :
    upsertFold key merge (upsertFold key merge db rows) rows =
      upsertFold key merge db rows := by
  funext k
  rw [upsertFold_lookup, upsertFold_lookup]
  exact upsertCell_idem merge hassoc hself (db k) _

/-! ### The concrete tables and persist_messages_batch -/

/-- ON CONFLICT DO NOTHING: the existing row wins. -/
def keepExisting {R : Type} : R → R → R := fun old _ => old

/-- Users ON CONFLICT DO UPDATE: every column replaced (latest wins). -/
def replaceUser : UserRow → UserRow → UserRow := fun _ new => new

/-- Reactions ON CONFLICT DO UPDATE: only count, count_details,
burst_colors and raw are replaced; identity columns stay. -/
def mergeReaction : ReactionRow → ReactionRow → ReactionRow := fun old new =>
  { old with
    count := new.count
    count_details := new.count_details
    burst_colors := new.burst_colors
    raw := new.raw }

/-- In-batch deduplication of users: the first occurrence of a user_id
wins (bulk_upsert_users). -/
def dedupUsers : List UserRow → List Nat → List UserRow
  | [], _ => []
  | u :: rest, seen =>
      if u.user_id ∈ seen then dedupUsers rest seen
      else u :: dedupUsers rest (u.user_id :: seen)

def bulk_upsert_users (t : Nat → Option UserRow) (users : List UserRow) :
    Nat → Option UserRow :=
  upsertFold UserRow.user_id replaceUser t (dedupUsers users [])

def bulk_insert_messages (t : Nat → Option MessageRow) (l : List MessageRow) :
    Nat → Option MessageRow :=
  upsertFold MessageRow.message_id keepExisting t l

def bulk_insert_attachments (t : Nat → Option AttachmentRow) (l : List AttachmentRow) :
    Nat → Option AttachmentRow :=
  upsertFold AttachmentRow.attachment_id keepExisting t l

def bulk_upsert_reactions (t : Nat × PyStr → Option ReactionRow) (l : List ReactionRow) :
    Nat × PyStr → Option ReactionRow :=
  upsertFold (fun r => (r.message_id, r.emoji_key)) mergeReaction t l

/-- The four tables persist_messages_batch touches. -/
structure ArchiveDb where
  users : Nat → Option UserRow
  messages : Nat → Option MessageRow
  attachments : Nat → Option AttachmentRow
  reactions : Nat × PyStr → Option ReactionRow

/-- users.extend(extract_users_from_message(msg_data)) over the batch. -/
def collectUsers : List Json → Option (List UserRow)
  | [] => some []
  | d :: rest => do
      let us ← extract_users_from_message d
      let tail ← collectUsers rest
      some (us ++ tail)

/-- Embedding of message_repository.persist_messages_batch. The mapping
phase (which can raise) happens entirely before any table is touched;
a raised exception is the none result and leaves the database unchanged. -/
def persist_messages_batch (db : ArchiveDb) (messages_data : List Json)
    (guild_id : Nat) : Option (ArchiveDb × Nat) :=
  if messages_data.isEmpty then some (db, 0)
  else do
    let (messages, attachments, reactions) ← map_messages messages_data (some guild_id)
    let users ← collectUsers messages_data
    some ({ users := bulk_upsert_users db.users users
            messages := bulk_insert_messages db.messages messages
            attachments := bulk_insert_attachments db.attachments attachments
            reactions := bulk_upsert_reactions db.reactions reactions },
          messages.length)

theorem bulk_upsert_users_idem (t : Nat → Option UserRow) (us : List UserRow) :
    bulk_upsert_users (bulk_upsert_users t us) us = bulk_upsert_users t us := by
  unfold bulk_upsert_users
  exact upsertFold_idem UserRow.user_id replaceUser (fun _ _ _ => rfl) (fun _ => rfl) t _

theorem bulk_insert_messages_idem (t : Nat → Option MessageRow) (l : List MessageRow) :
    bulk_insert_messages (bulk_insert_messages t l) l = bulk_insert_messages t l :=
  upsertFold_idem _ _ (fun _ _ _ => rfl) (fun _ => rfl) t _

theorem bulk_insert_attachments_idem (t : Nat → Option AttachmentRow)
    (l : List AttachmentRow) :
    bulk_insert_attachments (bulk_insert_attachments t l) l =
      bulk_insert_attachments t l :=
  upsertFold_idem _ _ (fun _ _ _ => rfl) (fun _ => rfl) t _

theorem bulk_upsert_reactions_idem (t : Nat × PyStr → Option ReactionRow)
    (l : List ReactionRow) :
    bulk_upsert_reactions (bulk_upsert_reactions t l) l =
      bulk_upsert_reactions t l := by
  unfold bulk_upsert_reactions
  exact upsertFold_idem (fun r => (r.message_id, r.emoji_key)) mergeReaction
    (fun _ _ _ => rfl) (fun _ => rfl) t _

/-- C4: persisting the same batch of message DTOs twice with the same
guild id yields the same database state as persisting it once; message
and attachment rows are untouched by the second call (conflict action is
do-nothing) and user and reaction rows are rewritten with identical
content, so the whole-state equality holds. -/
theorem c4_persist_idempotent : ∀ (db : ArchiveDb) (l : List Json) (g : Nat),
    (persist_messages_batch db l g).bind (fun r => persist_messages_batch r.1 l g) =
      persist_messages_batch db l g := by
  intro db l g
  by_cases hl : l.isEmpty
  · simp [persist_messages_batch, hl]
  · cases hm : map_messages l (some g) with
    | none => simp [persist_messages_batch, hl, hm]
    | some triple =>
        cases hu : collectUsers l with
        | none => simp [persist_messages_batch, hl, hm, hu]
        | some users =>
            obtain ⟨messages, attachments, reactions⟩ := triple
            simp [persist_messages_batch, hl, hm, hu, bulk_upsert_users_idem,
              bulk_insert_messages_idem, bulk_insert_attachments_idem,
              bulk_upsert_reactions_idem]

/-! ### NUL hygiene of the mapped message row (claim C3) -/

/-- Lift a Bool predicate over an optional value (vacuously true on none). -/
def optionHolds {α : Type} (p : α → Bool) : Option α → Bool
  | none => true
  | some a => p a

def optStrNoNul : Option PyStr → Bool := optionHolds strNoNul

theorem optionHolds_bind {α β : Type} (p : β → Bool) (x : Option α) (f : α → Option β)
    (h : ∀ a, x = some a → optionHolds p (f a) = true) :
    optionHolds p (x >>= f) = true := by
  cases x with
  | none => rfl
  | some a => exact h a rfl

theorem valuesNoNulFields_mem (fields : List (PyStr × Json))
    (h : valuesNoNulFields fields = true) :
    ∀ kv ∈ fields, valuesNoNul kv.2 = true := by
  induction fields with
  | nil => intro kv hkv; cases hkv
  | cons x rest ih =>
      obtain ⟨k, v⟩ := x
      simp only [valuesNoNulFields, Bool.and_eq_true] at h
      intro kv hkv
      rcases List.mem_cons.mp hkv with rfl | hm
      · exact h.1
      · exact ih h.2 kv hm

theorem lookup_clean (k : PyStr) (v : Json) :
    ∀ (fields : List (PyStr × Json)),
      (∀ kv ∈ fields, valuesNoNul kv.2 = true) →
      fields.lookup k = some v → valuesNoNul v = true := by
  intro fields
  induction fields with
  | nil => intro _ h; cases h
  | cons x rest ih =>
      obtain ⟨k2, v2⟩ := x
      intro hf h
      cases he : (k == k2) with
      | true =>
          simp only [List.lookup, he, Option.some.injEq] at h
          subst h
          exact hf (k2, v2) (List.mem_cons_self _ _)
      | false =>
          simp only [List.lookup, he] at h
          exact ih (fun kv hkv => hf kv (List.mem_cons_of_mem _ hkv)) h

theorem get?_clean (j : Json) (hj : valuesNoNul j = true) (k : PyStr) (v : Json)
    (h : j.get? k = some v) : valuesNoNul v = true := by
  cases j with
  | obj fields =>
      simp only [Json.get?] at h
      exact lookup_clean k v fields
        (valuesNoNulFields_mem fields (by simpa [valuesNoNul] using hj)) h
  | str s => simp [Json.get?] at h
  | num n => simp [Json.get?] at h
  | bool b => simp [Json.get?] at h
  | null => simp [Json.get?] at h
  | arr l => simp [Json.get?] at h

theorem get?_optClean (j : Json) (hj : valuesNoNul j = true) (k : PyStr) :
    optionHolds valuesNoNul (j.get? k) = true := by
  cases h : j.get? k with
  | none => rfl
  | some v => simpa [optionHolds] using get?_clean j hj k v h

theorem getOpt_clean (j : Json) (hj : valuesNoNul j = true) (k : PyStr) :
    optionHolds valuesNoNul (j.getOpt k) = true := by
  cases h : j.get? k with
  | none => simp [Json.getOpt, h, optionHolds]
  | some v =>
      cases v with
      | null => simp [Json.getOpt, h, optionHolds]
      | str s =>
          simp only [Json.getOpt, h, optionHolds]
          exact get?_clean j hj k _ h
      | num n =>
          simp only [Json.getOpt, h, optionHolds]
          exact get?_clean j hj k _ h
      | bool b =>
          simp only [Json.getOpt, h, optionHolds]
          exact get?_clean j hj k _ h
      | arr l =>
          simp only [Json.getOpt, h, optionHolds]
          exact get?_clean j hj k _ h
      | obj f =>
          simp only [Json.getOpt, h, optionHolds]
          exact get?_clean j hj k _ h

theorem getJ_arr_clean (j : Json) (hj : valuesNoNul j = true) (k : PyStr) :
    valuesNoNul (j.getJ k (.arr [])) = true := by
  unfold Json.getJ
  cases h : j.get? k with
  | none => simp [valuesNoNul, valuesNoNulList]
  | some v => simpa using get?_clean j hj k v h

theorem getStrD_clean (j : Json) (hj : valuesNoNul j = true) (k : PyStr) (s : PyStr)
    (h : j.getStrD? k [] = some s) : strNoNul s = true := by
  unfold Json.getStrD? at h
  cases hq : j.get? k with
  | none =>
      rw [hq] at h
      cases h
      rfl
  | some v =>
      rw [hq] at h
      cases v with
      | str s2 =>
          cases h
          simpa [valuesNoNul] using get?_clean j hj k _ hq
      | num n => cases h
      | bool b => cases h
      | null => cases h
      | arr l => cases h
      | obj f => cases h

theorem parse_clean (vo : Option Json) (hv : optionHolds valuesNoNul vo = true)
    (r : Option PyStr) (h : parse_iso8601 vo = some r) : optStrNoNul r = true := by
  cases vo with
  | none =>
      simp only [parse_iso8601] at h
      cases h
      rfl
  | some v =>
      cases v with
      | str s =>
          simp only [parse_iso8601] at h
          by_cases he : s.isEmpty
          · rw [if_pos he] at h
            cases h
            rfl
          · rw [if_neg he] at h
            cases h
            simpa [optStrNoNul, optionHolds, valuesNoNul] using hv
      | num n =>
          simp only [parse_iso8601] at h
          cases hn : Json.truthy (.num n) <;> rw [hn] at h <;> cases h
          rfl
      | bool b =>
          simp only [parse_iso8601] at h
          cases hn : Json.truthy (.bool b) <;> rw [hn] at h <;> cases h
          rfl
      | null =>
          simp only [parse_iso8601] at h
          cases h
          rfl
      | arr l =>
          simp only [parse_iso8601] at h
          cases hn : Json.truthy (.arr l) <;> rw [hn] at h <;> cases h
          rfl
      | obj f =>
          simp only [parse_iso8601] at h
          cases hn : Json.truthy (.obj f) <;> rw [hn] at h <;> cases h
          rfl

theorem interactionMeta_clean (j : Json) (hj : valuesNoNul j = true) :
    optionHolds valuesNoNul (interactionMeta j) = true := by
  cases h : j.get? ("interaction_metadata".toList) with
  | none =>
      simp only [interactionMeta, h]
      exact getOpt_clean j hj _
  | some v =>
      simp only [interactionMeta, h]
      by_cases ht : v.truthy = true
      · rw [if_pos ht]
        simpa [optionHolds] using get?_clean j hj _ _ h
      · rw [if_neg ht]
        exact getOpt_clean j hj _

theorem msgTimes_clean (data : Json) (hd : valuesNoNul data = true)
    (created_at edited : Option PyStr)
    (h : msgTimes? data = some (created_at, edited)) :
    optStrNoNul created_at = true ∧ optStrNoNul edited = true := by
  unfold msgTimes? at h
  cases hts : data.get? ("timestamp".toList) with
  | none => rw [hts] at h; cases h
  | some ts =>
      rw [hts] at h
      simp only [Option.bind_eq_bind, Option.some_bind] at h
      cases hca : parse_iso8601 (some ts) with
      | none => rw [hca] at h; cases h
      | some ca =>
          rw [hca] at h
          simp only [Option.bind_eq_bind, Option.some_bind] at h
          cases hed : parse_iso8601 (data.get? ("edited_timestamp".toList)) with
          | none => rw [hed] at h; cases h
          | some ed =>
              rw [hed] at h
              simp only [Option.bind_eq_bind, Option.some_bind, Option.some.injEq,
                Prod.mk.injEq] at h
              obtain ⟨rfl, rfl⟩ := h
              have hts2 : optionHolds valuesNoNul (some ts) = true := by
                simpa [optionHolds] using get?_clean _ hd _ ts hts
              refine ⟨?_, ?_⟩
              · exact parse_clean _ hts2 _ hca
              · exact parse_clean _ (get?_optClean _ hd _) _ hed

/-- Every text-bearing column of a message row is NUL-free. -/
def messageRowClean (m : MessageRow) : Bool :=
  strNoNul m.content && optStrNoNul m.created_at && optStrNoNul m.edited_timestamp &&
  optionHolds valuesNoNul m.mention_channels && optionHolds valuesNoNul m.application &&
  optionHolds valuesNoNul m.message_reference &&
  optionHolds valuesNoNul m.message_snapshots &&
  optionHolds valuesNoNul m.interaction_metadata && optionHolds valuesNoNul m.thread &&
  valuesNoNul m.embeds && optionHolds valuesNoNul m.components &&
  optionHolds valuesNoNul m.sticker_items && optionHolds valuesNoNul m.poll &&
  optionHolds valuesNoNul m.activity && optionHolds valuesNoNul m.call &&
  optionHolds valuesNoNul m.role_subscription_data && valuesNoNul m.raw

/-- C3 (amended, positive part): every string VALUE stored in a MESSAGE
row — the content column, timestamp texts, and every string value
reachable inside the nested JSON columns and the raw payload — has zero
bytes removed, because map_message reads all of them from the sanitized
copy of the DTO.  Dict keys inside the JSON columns are NOT covered:
_sanitize_null_bytes recurses only into values, so keys keep their zero
bytes (see the counterexample), and messageRowClean checks values only,
matching what the code guarantees. -/
theorem c3_message_rows_sanitized (dataOrig : Json) (g : Option Nat) :
    optionHolds messageRowClean (map_message dataOrig g) = true := by
  have hs : valuesNoNul (sanitize dataOrig) = true := sanitize_valuesNoNul dataOrig
  simp only [map_message]
  refine optionHolds_bind _ _ _ ?_
  intro g1 hg1
  refine optionHolds_bind _ _ _ ?_
  intro mention_ids h2
  refine optionHolds_bind _ _ _ ?_
  intro mention_role_ids h3
  refine optionHolds_bind _ _ _ ?_
  intro ids h4
  refine optionHolds_bind _ _ _ ?_
  intro content h8
  refine optionHolds_bind _ _ _ ?_
  intro times h9
  refine optionHolds_bind _ _ _ ?_
  intro optIds h12
  obtain ⟨created_at, edited⟩ := times
  simp only [optionHolds, messageRowClean, Bool.and_eq_true]
  refine ⟨⟨⟨⟨⟨⟨⟨⟨⟨⟨⟨⟨⟨⟨⟨⟨?_, ?_⟩, ?_⟩, ?_⟩, ?_⟩, ?_⟩, ?_⟩, ?_⟩, ?_⟩, ?_⟩, ?_⟩, ?_⟩,
    ?_⟩, ?_⟩, ?_⟩, ?_⟩, ?_⟩
  · exact getStrD_clean _ hs _ content h8
  · exact (msgTimes_clean _ hs _ _ h9).1
  · exact (msgTimes_clean _ hs _ _ h9).2
  · exact getOpt_clean _ hs _
  · exact getOpt_clean _ hs _
  · exact getOpt_clean _ hs _
  · exact getOpt_clean _ hs _
  · exact interactionMeta_clean _ hs
  · exact getOpt_clean _ hs _
  · exact getJ_arr_clean _ hs _
  · exact getOpt_clean _ hs _
  · exact getOpt_clean _ hs _
  · exact getOpt_clean _ hs _
  · exact getOpt_clean _ hs _
  · exact getOpt_clean _ hs _
  · exact getOpt_clean _ hs _
  · exact hs

/-- The empty archive database. -/
def emptyDb : ArchiveDb :=
  { users := fun _ => none
    messages := fun _ => none
    attachments := fun _ => none
    reactions := fun _ => none }

/-- A concrete message DTO whose attachment filename carries a zero byte. -/
def nulDto : Json :=
  .obj [
    ("id".toList, .num 77),
    ("channel_id".toList, .num 5),
    ("author".toList, .obj [("id".toList, .num 9)]),
    ("timestamp".toList, .str "2023-01-01T00:00:00+00:00".toList),
    ("content".toList, .str ['h', 'i', nulChar, 'b']),
    ("attachments".toList, .arr [
      .obj [
        ("id".toList, .num 501),
        ("filename".toList, .str ['a', nulChar, 'b']),
        ("size".toList, .num 10),
        ("url".toList, .str "u".toList)]])]

/-! ### Checkpoint store (ingest.state.IngestStateManager)

The store is per channel; a single channel's row is an Option Checkpoint
(none = no row). The channel_id / guild_id key columns and the
last_synced_at timestamp are not modelled: every operation below acts on
one channel's row and always refreshes last_synced_at. -/

structure Checkpoint where
  oldest_message_id : Option Nat
  newest_message_id : Option Nat
  backfill_complete : Bool
deriving DecidableEq

/-- IngestStateManager.create_or_get_checkpoint: the row read through, or
a fresh row with null frontiers and backfill_complete = false. -/
def create_or_get_checkpoint (s : Option Checkpoint) : Checkpoint :=
  match s with
  | some c => c
  | none => { oldest_message_id := none, newest_message_id := none,
              backfill_complete := false }

/-- The store after create_or_get_checkpoint. -/
def createStore (s : Option Checkpoint) : Option Checkpoint :=
  some (create_or_get_checkpoint s)

/-- The oldest-frontier guard: assign iff null or strictly smaller. -/
def shouldLowerOldest (cur : Option Nat) (i : Nat) : Bool :=
  match cur with
  | none => true
  | some c => decide (i < c)

/-- The newest-frontier guard: assign iff null or strictly larger. -/
def shouldRaiseNewest (cur : Option Nat) (i : Nat) : Bool :=
  match cur with
  | none => true
  | some c => decide (c < i)

/-- IngestStateManager.update_oldest: lower the oldest frontier under the
guard, and also initialize the newest frontier when it is null. -/
def update_oldest (s : Option Checkpoint) (message_id : Nat) : Option Checkpoint :=
  let c := create_or_get_checkpoint s
  let c := if shouldLowerOldest c.oldest_message_id message_id then
      { c with oldest_message_id := some message_id } else c
  let c := if c.newest_message_id = none then
      { c with newest_message_id := some message_id } else c
  some c

/-- IngestStateManager.update_newest: raise the newest frontier under the
guard (the oldest frontier is not touched). -/
def update_newest (s : Option Checkpoint) (message_id : Nat) : Option Checkpoint :=
  let c := create_or_get_checkpoint s
  let c := if shouldRaiseNewest c.newest_message_id message_id then
      { c with newest_message_id := some message_id } else c
  some c

/-- IngestStateManager.update_bounds: both guarded assignments; a none
argument is a no-op on its side. -/
def update_bounds (s : Option Checkpoint) (oldest_id newest_id : Option Nat) :
    Option Checkpoint :=
  let c := create_or_get_checkpoint s
  let c := match oldest_id with
    | some o => if shouldLowerOldest c.oldest_message_id o then
        { c with oldest_message_id := some o } else c
    | none => c
  let c := match newest_id with
    | some n => if shouldRaiseNewest c.newest_message_id n then
        { c with newest_message_id := some n } else c
    | none => c
  some c

/-- IngestStateManager.mark_backfill_complete: sets the flag only when a
row already exists; on a missing row it does nothing at all. -/
def mark_backfill_complete (s : Option Checkpoint) : Option Checkpoint :=
  match s with
  | some c => some { c with backfill_complete := true }
  | none => none

/-- IngestStateManager.is_backfill_complete. -/
def is_backfill_complete (s : Option Checkpoint) : Bool :=
  match s with
  | some c => c.backfill_complete
  | none => false

/-! ### Claim C5 vocabulary -/

def oldestOf (s : Option Checkpoint) : Option Nat :=
  match s with
  | some c => c.oldest_message_id
  | none => none

def newestOf (s : Option Checkpoint) : Option Nat :=
  match s with
  | some c => c.newest_message_id
  | none => none

/-- Checkpoint boundedness: oldest ≤ newest whenever both are non-null. -/
def boundsOk (s : Option Checkpoint) : Bool :=
  match oldestOf s, newestOf s with
  | some a, some b => decide (a ≤ b)
  | _, _ => true

/-- Across one call, the oldest frontier never increases (and never
reverts to null). -/
def oldestNonIncreasing (s t : Option Checkpoint) : Bool :=
  match oldestOf s, oldestOf t with
  | some a, some b => decide (b ≤ a)
  | some _, none => false
  | none, _ => true

/-- Across one call, the newest frontier never decreases (and never
reverts to null). -/
def newestNonDecreasing (s t : Option Checkpoint) : Bool :=
  match newestOf s, newestOf t with
  | some a, some b => decide (a ≤ b)
  | some _, none => false
  | none, _ => true

/-- Side condition under which update_oldest preserves boundedness: when
the row has a newest frontier but no oldest frontier yet, the id must not
exceed the newest frontier. -/
def oldestCallSafe (s : Option Checkpoint) (i : Nat) : Bool :=
  match oldestOf s, newestOf s with
  | none, some b => decide (i ≤ b)
  | _, _ => true

/-- Side condition under which update_newest preserves boundedness. -/
def newestCallSafe (s : Option Checkpoint) (i : Nat) : Bool :=
  match oldestOf s, newestOf s with
  | some a, none => decide (a ≤ i)
  | _, _ => true

/-- Side condition under which update_bounds preserves boundedness. -/
def boundsCallSafe (s : Option Checkpoint) (o n : Option Nat) : Bool :=
  (match o, n with
   | some ov, some nv => decide (ov ≤ nv)
   | _, _ => true) &&
  (match o, n, oldestOf s, newestOf s with
   | some ov, none, none, some b => decide (ov ≤ b)
   | _, _, _, _ => true) &&
  (match o, n, oldestOf s, newestOf s with
   | none, some nv, some a, none => decide (a ≤ nv)
   | _, _, _, _ => true)

/-! ### Backfill engine (ingest.backfill.backfill_channel)

The session holds the pending (flushed-but-uncommitted) checkpoint row and
pending message ids next to their committed counterparts; commit copies
pending over committed. Messages are represented by their snowflake ids:
min/max/len are all the engine reads from them, and
persist_messages_batch inserts each with ON CONFLICT DO NOTHING and
returns the batch length. -/

structure SyncSession where
  cp : Option Checkpoint
  cpCommitted : Option Checkpoint
  msgs : List Nat
  msgsCommitted : List Nat
  requests : Nat
  newestTrace : List (Option Nat)
deriving DecidableEq

def commitSession (st : SyncSession) : SyncSession :=
  { st with cpCommitted := st.cp, msgsCommitted := st.msgs }

/-- Insert one message id, ignoring a conflicting (duplicate) id. -/
def insertMsgId (ids : List Nat) (i : Nat) : List Nat :=
  if i ∈ ids then ids else ids ++ [i]

def persistIds (ids : List Nat) (batch : List Nat) : List Nat :=
  batch.foldl insertMsgId ids

/-- A message server: effective limit and before-cursor to the returned
batch of message ids (newest first). -/
abbrev MsgServer := Nat → Option Nat → List Nat

/-- get_messages drops a falsy before parameter (None or 0). -/
def effBefore : Option Nat → Option Nat
  | none => none
  | some b => if b = 0 then none else some b

/-- The starting cursor of backfill_channel: the checkpoint's truthy
oldest_message_id if a checkpoint exists, else no cursor. -/
def startBefore (checkpoint : Option Checkpoint) : Option Nat :=
  match checkpoint with
  | some c =>
      match c.oldest_message_id with
      | some o => if o = 0 then none else some o
      | none => none
  | none => none

/-- The while-True loop of backfill_channel. The checkpointAtStart
argument is the checkpoint variable read once before the loop: the source
never refreshes it, so the same value decides the newest_id argument on
every iteration. Fuel bounds the recursion; none is returned when it runs
out. -/
def backfillLoop (server : MsgServer) (batch_size : Nat)
    (checkpointAtStart : Option Checkpoint) :
    Nat → Option Nat → Nat → SyncSession → Option (Nat × Bool × SyncSession)
  | 0, _, _, _ => none
  | fuel + 1, before_id, total, st =>
    let messages_data := server (min batch_size 100) (effBefore before_id)
    let st := { st with requests := st.requests + 1 }
    match messages_data with
    | [] =>
        let st := { st with cp := mark_backfill_complete st.cp }
        some (total, true, st)
    | m :: ms =>
        let st := { st with msgs := persistIds st.msgs (m :: ms) }
        let total := total + (m :: ms).length
        let oldest_in_batch := ms.foldl Nat.min m
        let newest_in_batch := ms.foldl Nat.max m
        let newestArg := if checkpointAtStart.isNone then some newest_in_batch else none
        let st := { st with cp := update_bounds st.cp (some oldest_in_batch) newestArg }
        let st := commitSession st
        let st := { st with newestTrace := st.newestTrace ++ [newestOf st.cp] }
        let before_id := some oldest_in_batch
        if (m :: ms).length < batch_size then
          let st := { st with cp := mark_backfill_complete st.cp }
          let st := commitSession st
          some (total, true, st)
        else
          backfillLoop server batch_size checkpointAtStart fuel before_id total st

/-- Embedding of backfill_channel: early exit for a complete checkpoint,
then the loop starting at the checkpoint's oldest frontier. -/
def backfill_channel (server : MsgServer) (batch_size : Nat) (st : SyncSession)
    (fuel : Nat) : Option (Nat × Bool × SyncSession) :=
  let checkpoint := st.cp
  if is_backfill_complete checkpoint then some (0, true, st)
  else backfillLoop server batch_size checkpoint fuel (startBefore checkpoint) 0 st

/-- A fresh sync session: no checkpoint row, nothing persisted. -/
def emptySession : SyncSession :=
  { cp := none, cpCommitted := none, msgs := [], msgsCommitted := [],
    requests := 0, newestTrace := [] }

/-- The channel of scenario 1: 250 messages with ids 1000 down to 751,
served newest-first, at most limit per page, strictly before the cursor. -/
def history250 : List Nat := (List.range 250).map (fun i => 1000 - i)

def serve250 : MsgServer := fun limit before =>
  (history250.filter (fun i =>
    match before with
    | some b => decide (i < b)
    | none => true)).take limit

/-- C3 counterexample, in two parts.  First: the batch containing nulDto
is persisted, and the stored attachment row keeps the zero byte in its
filename — map_messages builds attachment (and reaction and user) rows
from the original, unsanitized DTO, so the claim fails for those rows.
Second: _sanitize_null_bytes rebuilds dicts as key → sanitized value and
never touches the KEYS, so a zero byte inside a dict key survives
sanitization and is stored inside the message row's raw JSON column —
the claim's "strings nested anywhere inside the raw JSON payload" fails
for dict keys too. -/
theorem c3_nul_counterexample :
    (((persist_messages_batch emptyDb [nulDto] 1).map
        (fun r => (r.1.attachments 501).map AttachmentRow.filename)
      = some (some ['a', nulChar, 'b'])) ∧ nulChar ∈ ['a', nulChar, 'b']) ∧
    (sanitize (Json.obj [(['k', nulChar], Json.str ['v', nulChar])]) =
        Json.obj [(['k', nulChar], Json.str ['v'])] ∧
      nulChar ∈ ['k', nulChar]) :=
  ⟨⟨rfl, by simp⟩, rfl, by simp⟩

set_option maxRecDepth 100000 in
/-- C1: cold start on a channel with no checkpoint whose server holds 250
messages with ids 751..1000 served newest-first in pages of at most 100:
backfill_channel issues exactly 3 requests, reports completion, persists
250 message rows, commits a final checkpoint with oldest 751, newest 1000
and backfill_complete true, and the newest frontier recorded after each of
the three batches is constantly 1000 (not modified after the first). -/
theorem c1_cold_start_backfill :
    (backfill_channel serve250 100 emptySession 10).map
        (fun r => (r.1, r.2.1, r.2.2.requests, r.2.2.msgsCommitted.length,
          r.2.2.cpCommitted, r.2.2.newestTrace))
      = some (250, true, 3, 250,
          some { oldest_message_id := some 751, newest_message_id := some 1000,
                 backfill_complete := true },
          [some 1000, some 1000, some 1000]) := by rfl

/-- C2 counterexample: on a channel with no checkpoint row, an empty very
first batch returns a result reporting completion, but the store is left
without any checkpoint row — nothing is committed and
is_backfill_complete still answers false, so the channel is NOT marked
backfill-complete as the claim states. -/
theorem c2_empty_first_batch_counterexample :
    (backfill_channel (fun _ _ => []) 100 emptySession 5).map
        (fun r => (r.1, r.2.1, r.2.2.cp, r.2.2.cpCommitted,
          is_backfill_complete r.2.2.cp))
      = some (0, true, none, none, false) := by rfl

/-- C2 (amended): whenever the first message request of a backfill returns
zero messages, the engine calls mark_backfill_complete, makes no further
request and exits reporting completion WITHOUT committing: the pending
checkpoint is mark_backfill_complete of the previous one (a no-op that
leaves no row when no row exists), the committed state and the persisted
messages are untouched. -/
theorem c2_empty_batch_amended (server : MsgServer) (batch_size : Nat)
    (st : SyncSession) (fuel : Nat)
    (h1 : is_backfill_complete st.cp = false)
    (h2 : server (min batch_size 100) (effBefore (startBefore st.cp)) = []) :
    (backfill_channel server batch_size st (fuel + 1) =
      some (0, true,
        { st with
          requests := st.requests + 1
          cp := mark_backfill_complete st.cp })) ∧
    (st.cp = none → mark_backfill_complete st.cp = none) := by
  constructor
  · simp only [backfill_channel, h1, Bool.false_eq_true, if_false]
    simp only [backfillLoop, h2]
  · intro hnone
    rw [hnone]
    rfl

/-- C2 witness: the amended statement evaluated on the empty server and a
fresh session. -/
theorem c2_empty_batch_amended_witness :
    backfill_channel (fun _ _ => []) 100 emptySession 5 =
      some (0, true,
        { emptySession with
          requests := emptySession.requests + 1
          cp := mark_backfill_complete emptySession.cp }) :=
  (c2_empty_batch_amended (fun _ _ => []) 100 emptySession 4 rfl rfl).1

/-- C5 counterexample: the state reached by create_or_get_checkpoint,
update_newest 10, update_oldest 20 has oldest_message_id = 20 greater
than newest_message_id = 10, refuting the claimed invariant for arbitrary
operation sequences (update_oldest initializes the newest frontier only
when it is null, and never re-checks the stored newest bound). -/
theorem c5_bounds_counterexample :
    update_oldest (update_newest (createStore none) 10) 20 =
      some { oldest_message_id := some 20, newest_message_id := some 10,
             backfill_complete := false } ∧
    boundsOk (update_oldest (update_newest (createStore none) 10) 20) = false :=
  ⟨rfl, rfl⟩

/-- Unconditional monotonicity of the five checkpoint-store operations:
for every store state and every argument, the oldest frontier never
increases and the newest frontier never decreases across the call. -/
theorem checkpoint_ops_monotonic (s : Option Checkpoint) (i : Nat)
    (o n : Option Nat) :
    oldestNonIncreasing s (update_oldest s i) = true ∧
    newestNonDecreasing s (update_oldest s i) = true ∧
    oldestNonIncreasing s (update_newest s i) = true ∧
    newestNonDecreasing s (update_newest s i) = true ∧
    oldestNonIncreasing s (update_bounds s o n) = true ∧
    newestNonDecreasing s (update_bounds s o n) = true ∧
    oldestNonIncreasing s (mark_backfill_complete s) = true ∧
    newestNonDecreasing s (mark_backfill_complete s) = true ∧
    oldestNonIncreasing s (createStore s) = true ∧
    newestNonDecreasing s (createStore s) = true := by
  rcases s with _ | ⟨co, cn, cb⟩
  · rcases o with _ | ov <;> rcases n with _ | nv <;>
      simp [update_oldest, update_newest, update_bounds, mark_backfill_complete,
        createStore, create_or_get_checkpoint, shouldLowerOldest, shouldRaiseNewest,
        oldestNonIncreasing, newestNonDecreasing, oldestOf, newestOf] <;>
      split_ifs <;> simp_all <;> omega
  · rcases co with _ | a <;> rcases cn with _ | b <;>
      rcases o with _ | ov <;> rcases n with _ | nv <;>
      simp [update_oldest, update_newest, update_bounds, mark_backfill_complete,
        createStore, create_or_get_checkpoint, shouldLowerOldest, shouldRaiseNewest,
        oldestNonIncreasing, newestNonDecreasing, oldestOf, newestOf] <;>
      split_ifs <;> simp_all <;> omega

/-- Preservation of oldest ≤ newest, each operation under its own
side condition on the arguments (mark_backfill_complete and
create_or_get_checkpoint need none). -/
theorem checkpoint_ops_bounds (s : Option Checkpoint) (i : Nat)
    (o n : Option Nat) (hInv : boundsOk s = true) :
    (oldestCallSafe s i = true → boundsOk (update_oldest s i) = true) ∧
    (newestCallSafe s i = true → boundsOk (update_newest s i) = true) ∧
    (boundsCallSafe s o n = true → boundsOk (update_bounds s o n) = true) ∧
    boundsOk (mark_backfill_complete s) = true ∧
    boundsOk (createStore s) = true := by
  rcases s with _ | ⟨co, cn, cb⟩
  · rcases o with _ | ov <;> rcases n with _ | nv <;>
      simp_all [update_oldest, update_newest, update_bounds, mark_backfill_complete,
        createStore, create_or_get_checkpoint, shouldLowerOldest, shouldRaiseNewest,
        boundsOk, oldestOf, newestOf,
        oldestCallSafe, newestCallSafe, boundsCallSafe] <;>
      split_ifs <;> simp_all <;> omega
  · rcases co with _ | a <;> rcases cn with _ | b <;>
      rcases o with _ | ov <;> rcases n with _ | nv <;>
      simp_all [update_oldest, update_newest, update_bounds, mark_backfill_complete,
        createStore, create_or_get_checkpoint, shouldLowerOldest, shouldRaiseNewest,
        boundsOk, oldestOf, newestOf,
        oldestCallSafe, newestCallSafe, boundsCallSafe] <;>
      split_ifs <;> simp_all <;> omega

/-- A checkpoint state for the C5 witness: oldest 3, newest 5. -/
def cpW : Option Checkpoint :=
  some { oldest_message_id := some 3, newest_message_id := some 5,
         backfill_complete := false }

/-- C5 (amended): every checkpoint-store operation, on EVERY store state
and argument, keeps the oldest frontier from increasing and the newest
frontier from decreasing (unconditionally); and each operation preserves
oldest ≤ newest provided its id arguments respect the existing opposite
frontier whenever the frontier it would initialize is null (conditions
oldestCallSafe / newestCallSafe / boundsCallSafe, which the backfill and
incremental callers satisfy — mark_backfill_complete and
create_or_get_checkpoint need no condition). -/
theorem c5_monotonic_amended (s : Option Checkpoint) (i : Nat) (o n : Option Nat) :
    (oldestNonIncreasing s (update_oldest s i) = true ∧
     newestNonDecreasing s (update_oldest s i) = true ∧
     oldestNonIncreasing s (update_newest s i) = true ∧
     newestNonDecreasing s (update_newest s i) = true ∧
     oldestNonIncreasing s (update_bounds s o n) = true ∧
     newestNonDecreasing s (update_bounds s o n) = true ∧
     oldestNonIncreasing s (mark_backfill_complete s) = true ∧
     newestNonDecreasing s (mark_backfill_complete s) = true ∧
     oldestNonIncreasing s (createStore s) = true ∧
     newestNonDecreasing s (createStore s) = true) ∧
    (boundsOk s = true →
      (oldestCallSafe s i = true → boundsOk (update_oldest s i) = true) ∧
      (newestCallSafe s i = true → boundsOk (update_newest s i) = true) ∧
      (boundsCallSafe s o n = true → boundsOk (update_bounds s o n) = true) ∧
      boundsOk (mark_backfill_complete s) = true ∧
      boundsOk (createStore s) = true) :=
  ⟨checkpoint_ops_monotonic s i o n, fun hInv => checkpoint_ops_bounds s i o n hInv⟩

/-- C5 witness: the amended statement evaluated on the checkpoint with
oldest 3, newest 5, calling the operations with id 2 and bounds (1, 7),
with every side condition discharged concretely. -/
theorem c5_monotonic_amended_witness :
    oldestNonIncreasing cpW (update_oldest cpW 2) = true ∧
    boundsOk (update_oldest cpW 2) = true ∧
    boundsOk (update_newest cpW 2) = true ∧
    boundsOk (update_bounds cpW (some 1) (some 7)) = true :=
  ⟨(c5_monotonic_amended cpW 2 (some 1) (some 7)).1.1,
   ((c5_monotonic_amended cpW 2 (some 1) (some 7)).2 (by decide)).1 (by decide),
   ((c5_monotonic_amended cpW 2 (some 1) (some 7)).2 (by decide)).2.1 (by decide),
   ((c5_monotonic_amended cpW 2 (some 1) (some 7)).2 (by decide)).2.2.1 (by decide)⟩

/-! ### HTTP client retry loop (ingest.client.DiscordClient._request)

The response stream is a function from request index to response. Sleep
durations are recorded in seconds as rationals. The for-loop over
attempt in range(MAX_RETRIES + 1) is recursion on the remaining
iteration count, with the attempt value carried alongside: EVERY branch
that continues the loop moves to the next iteration — in Python a
continue inside a for loop advances the loop variable, so the 429 branch
consumes an iteration exactly like the 5xx branch does, despite the
comment in the source saying otherwise. -/

/-- Python min of two rationals, written out so it can be reasoned about
directly. -/
def minRat (a b : Rat) : Rat := if a ≤ b then a else b

def MAX_RETRIES : Nat := 5
def MAX_RATE_LIMIT_RETRIES : Nat := 30
def INITIAL_BACKOFF : Rat := 1
def MAX_BACKOFF : Rat := 64

/-- One wire response: an HTTP status (with its Retry-After header when
present), a timeout, or a transport error. -/
inductive HttpResp where
  | status (code : Nat) (retryAfter : Option Rat)
  | timeout
  | transportErr
deriving DecidableEq

/-- How one _request call ends. -/
inductive ReqOutcome where
  | success (idx : Nat)
  | apiError (status : Nat)
  | rateLimitExhausted
  | maxRetriesExceeded
  | timeoutRaised
  | transportRaised
deriving DecidableEq

structure RequestTrace where
  outcome : ReqOutcome
  requestsMade : Nat
  sleeps : List Rat
deriving DecidableEq

/-- The attempt loop of _request. Arguments: remaining iterations, the
attempt loop variable, the request index, the current backoff, the
rate-limit retry counter, the sleeps so far. Falling out of the loop is
the final raise DiscordAPIError(500, max retries exceeded). -/
def requestLoop (responses : Nat → HttpResp) :
    Nat → Nat → Nat → Rat → Nat → List Rat → RequestTrace
  | 0, _attempt, k, _backoff, _rl, sleeps =>
      { outcome := .maxRetriesExceeded, requestsMade := k, sleeps := sleeps }
  | remaining + 1, attempt, k, backoff, rl, sleeps =>
      match responses k with
      | .status code ra =>
          if code = 200 then
            { outcome := .success k, requestsMade := k + 1, sleeps := sleeps }
          else if code = 204 then
            { outcome := .success k, requestsMade := k + 1, sleeps := sleeps }
          else if code = 429 then
            (if rl + 1 > MAX_RATE_LIMIT_RETRIES then
              { outcome := .rateLimitExhausted, requestsMade := k + 1, sleeps := sleeps }
            else
              requestLoop responses remaining (attempt + 1) (k + 1) backoff (rl + 1)
                (sleeps ++ [ra.getD 1]))
          else if code = 401 ∨ code = 403 ∨ code = 404 then
            { outcome := .apiError code, requestsMade := k + 1, sleeps := sleeps }
          else if 500 ≤ code then
            (if attempt < MAX_RETRIES then
              requestLoop responses remaining (attempt + 1) (k + 1)
                (minRat (backoff * 2) MAX_BACKOFF) rl (sleeps ++ [backoff])
            else
              { outcome := .apiError code, requestsMade := k + 1, sleeps := sleeps })
          else
            { outcome := .apiError code, requestsMade := k + 1, sleeps := sleeps }
      | .timeout =>
          if attempt < MAX_RETRIES then
            requestLoop responses remaining (attempt + 1) (k + 1)
              (minRat (backoff * 2) MAX_BACKOFF) rl (sleeps ++ [backoff])
          else
            { outcome := .timeoutRaised, requestsMade := k + 1, sleeps := sleeps }
      | .transportErr =>
          if attempt < MAX_RETRIES then
            requestLoop responses remaining (attempt + 1) (k + 1)
              (minRat (backoff * 2) MAX_BACKOFF) rl (sleeps ++ [backoff])
          else
            { outcome := .transportRaised, requestsMade := k + 1, sleeps := sleeps }

/-- Embedding of DiscordClient._request on a given response stream. -/
def clientRequest (responses : Nat → HttpResp) : RequestTrace :=
  requestLoop responses (MAX_RETRIES + 1) 0 0 INITIAL_BACKOFF 0 []

/-- A response that the source retries with backoff: 5xx, timeout or
transport error. -/
def retryableRespB : HttpResp → Bool
  | .status code _ => decide (500 ≤ code)
  | .timeout => true
  | .transportErr => true

/-- What _request raises when the budget is exhausted on a retryable
response: the last status for 5xx, the exception itself otherwise. -/
def exhaustionOutcome : HttpResp → ReqOutcome
  | .status code _ => .apiError code
  | .timeout => .timeoutRaised
  | .transportErr => .transportRaised

theorem requestLoop_retryable_step (responses : Nat → HttpResp)
    (remaining attempt k rl : Nat) (backoff : Rat) (sleeps : List Rat)
    (hatt : attempt < MAX_RETRIES) (hr : retryableRespB (responses k) = true) :
    requestLoop responses (remaining + 1) attempt k backoff rl sleeps =
      requestLoop responses remaining (attempt + 1) (k + 1)
        (minRat (backoff * 2) MAX_BACKOFF) rl (sleeps ++ [backoff]) := by
  cases hresp : responses k with
  | status code ra =>
      simp only [retryableRespB, decide_eq_true_eq] at hr
      rw [hresp] at hr
      simp only [retryableRespB, decide_eq_true_eq] at hr
      simp only [requestLoop, hresp]
      rw [if_neg (by omega), if_neg (by omega), if_neg (by omega),
          if_neg (by rintro (h | h | h) <;> omega), if_pos hr, if_pos hatt]
  | timeout => simp only [requestLoop, hresp, if_pos hatt]
  | transportErr => simp only [requestLoop, hresp, if_pos hatt]

theorem requestLoop_exhaust (responses : Nat → HttpResp) (attempt k rl : Nat)
    (backoff : Rat) (sleeps : List Rat)
    (hatt : ¬ attempt < MAX_RETRIES)
    (hr : retryableRespB (responses k) = true) :
    requestLoop responses 1 attempt k backoff rl sleeps =
      { outcome := exhaustionOutcome (responses k), requestsMade := k + 1,
        sleeps := sleeps } := by
  cases hresp : responses k with
  | status code ra =>
      rw [hresp] at hr
      simp only [retryableRespB, decide_eq_true_eq] at hr
      simp only [requestLoop, hresp, exhaustionOutcome]
      rw [if_neg (by omega), if_neg (by omega), if_neg (by omega),
          if_neg (by rintro (h | h | h) <;> omega), if_pos hr, if_neg hatt]
  | timeout =>
      simp only [requestLoop, hresp, exhaustionOutcome, if_neg hatt]
  | transportErr =>
      simp only [requestLoop, hresp, exhaustionOutcome, if_neg hatt]

/-- Shared evaluation lemma: the full retry trace on an all-retryable
response stream. -/
theorem clientRequest_retryable_exhaust (responses : Nat → HttpResp)
    (h : ∀ m, m ≤ 5 → retryableRespB (responses m) = true) :
    clientRequest responses =
      { outcome := exhaustionOutcome (responses 5), requestsMade := 6,
        sleeps := [1, 2, 4, 8, 16] } := by
  have hint : ∀ a : Nat, a < 5 → a < MAX_RETRIES := by
    intro a ha
    simpa [MAX_RETRIES] using ha
  have e1 : minRat (INITIAL_BACKOFF * 2) MAX_BACKOFF = 2 := by
    norm_num [minRat, INITIAL_BACKOFF, MAX_BACKOFF]
  have e2 : minRat ((2 : Rat) * 2) MAX_BACKOFF = 4 := by
    norm_num [minRat, MAX_BACKOFF]
  have e3 : minRat ((4 : Rat) * 2) MAX_BACKOFF = 8 := by
    norm_num [minRat, MAX_BACKOFF]
  have e4 : minRat ((8 : Rat) * 2) MAX_BACKOFF = 16 := by
    norm_num [minRat, MAX_BACKOFF]
  unfold clientRequest
  rw [show MAX_RETRIES + 1 = 5 + 1 from rfl]
  rw [requestLoop_retryable_step responses 5 0 0 0 INITIAL_BACKOFF []
      (hint 0 (by omega)) (h 0 (by omega))]
  rw [e1]
  rw [requestLoop_retryable_step responses 4 1 1 0 2 ([] ++ [INITIAL_BACKOFF])
      (hint 1 (by omega)) (h 1 (by omega))]
  rw [e2]
  rw [requestLoop_retryable_step responses 3 2 2 0 4 (([] ++ [INITIAL_BACKOFF]) ++ [2])
      (hint 2 (by omega)) (h 2 (by omega))]
  rw [e3]
  rw [requestLoop_retryable_step responses 2 3 3 0 8
      ((([] ++ [INITIAL_BACKOFF]) ++ [2]) ++ [4])
      (hint 3 (by omega)) (h 3 (by omega))]
  rw [e4]
  rw [requestLoop_retryable_step responses 1 4 4 0 16
      (((([] ++ [INITIAL_BACKOFF]) ++ [2]) ++ [4]) ++ [8])
      (hint 4 (by omega)) (h 4 (by omega))]
  rw [requestLoop_exhaust responses (4 + 1) (4 + 1) 0 (minRat (16 * 2) MAX_BACKOFF)
      ((((([] ++ [INITIAL_BACKOFF]) ++ [2]) ++ [4]) ++ [8]) ++ [16])
      (by simp [MAX_RETRIES]) (h 5 (by omega))]
  have hi : INITIAL_BACKOFF = 1 := rfl
  rw [hi]
  norm_num

/-- C6: evaluation of _request on the response stream of the repository's
own test_429_does_not_consume_retry_attempts (ten 429s with Retry-After
0.5, then a 200): the code raises DiscordAPIError(500, max retries
exceeded) after six requests and six rate-limit sleeps, because the
continue after a 429 advances the for-loop attempt counter — the success
is never reached and no rate-limit-exhausted (429) error is produced. -/
theorem c6_rate_limit_consumes_budget :
    clientRequest (fun n => if n < 10 then .status 429 (some (1 / 2))
      else .status 200 none) =
      { outcome := .maxRetriesExceeded, requestsMade := 6,
        sleeps := [1 / 2, 1 / 2, 1 / 2, 1 / 2, 1 / 2, 1 / 2] } := by rfl

/-- C7 counterexample: on a stream of nothing but 502 responses the
client makes SIX requests in total (the initial attempt plus five
retries), not at most five as the claim states; the sleeps follow the
1,2,4,8,16 schedule and the failure carries the last status. -/
theorem c7_six_attempts_counterexample :
    clientRequest (fun _ => .status 502 none) =
      { outcome := .apiError 502, requestsMade := 6,
        sleeps := [1, 2, 4, 8, 16] } ∧ ¬ (6 ≤ 5) :=
  ⟨clientRequest_retryable_exhaust (fun _ => .status 502 none) (fun _ _ => rfl),
   by omega⟩

/-- C7 (amended): for a request whose every response is retryable (5xx,
timeout or transport error), the client makes exactly 6 attempts
(1 + MAX_RETRIES), sleeping the backoff schedule 1, 2, 4, 8, 16 seconds
(2 to the n capped at 64) between consecutive attempts, and fails with
the outcome of the last response: its status for a 5xx, the re-raised
exception for a timeout / transport error. -/
theorem c7_retry_exhaustion_amended (responses : Nat → HttpResp)
    (h : ∀ m, m ≤ 5 → retryableRespB (responses m) = true) :
    clientRequest responses =
      { outcome := exhaustionOutcome (responses 5), requestsMade := 6,
        sleeps := [1, 2, 4, 8, 16] } :=
  clientRequest_retryable_exhaust responses h

/-- C7 witness: the amended statement evaluated on the all-502 stream. -/
theorem c7_retry_exhaustion_amended_witness :
    clientRequest (fun _ => .status 502 none) =
      { outcome := exhaustionOutcome (HttpResp.status 502 none), requestsMade := 6,
        sleeps := [1, 2, 4, 8, 16] } :=
  c7_retry_exhaustion_amended (fun _ => .status 502 none) (fun _ _ => rfl)

/-! ### Permission calculator (utils.permissions) -/

def VIEW_CHANNEL : Nat := 0x0000000000000400
def ADMINISTRATOR : Nat := 0x0000000000000008
def READ_MESSAGE_HISTORY : Nat := 0x0000000000010000
def MANAGE_THREADS : Nat := 0x0000000400000000
def CONNECT : Nat := 0x0000000000100000

/-- The all-ones 64-bit mask returned for administrators. -/
def ALL_PERMISSIONS : Nat := 0xFFFFFFFFFFFFFFFF

/-- permissions &= ~deny; permissions |= allow. On arbitrary-precision
integers p AND NOT d equals p - (p AND d), since p AND d is a sub-mask
of p. -/
def applyOverwrite (p deny allow : Nat) : Nat := (p - (p &&& deny)) ||| allow

/-- The OR-accumulation of compute_base_permissions before the
administrator check: the everyone role's bits, then OR over the user's
roles (dict.get with default 0). -/
def basePermAccum (user_roles : List Nat) (guild_roles : List (Nat × Nat))
    (everyone_role_id : Nat) : Nat :=
  user_roles.foldl (fun p role_id => p ||| ((guild_roles.lookup role_id).getD 0))
    ((guild_roles.lookup everyone_role_id).getD 0)

/-- Embedding of utils.permissions.compute_base_permissions. -/
def compute_base_permissions (user_roles : List Nat)
    (guild_roles : List (Nat × Nat)) (everyone_role_id : Nat) : Nat :=
  let permissions := basePermAccum user_roles guild_roles everyone_role_id
  if permissions &&& ADMINISTRATOR ≠ 0 then ALL_PERMISSIONS else permissions

/-- A channel permission overwrite: otype is the DTO's type field
(0 = role, 1 = member). -/
structure Overwrite where
  id : Nat
  otype : Nat
  allow : Nat
  deny : Nat
deriving DecidableEq

/-- The loop state of compute_channel_permissions. -/
structure OwAcc where
  permissions : Nat
  role_allow : Nat
  role_deny : Nat
  member_allow : Nat
  member_deny : Nat
  has_member_overwrite : Bool
deriving DecidableEq

/-- One iteration of the overwrite loop: the everyone overwrite is
applied to permissions immediately, a role overwrite of the user
accumulates by OR, a member overwrite for the user replaces the member
fields. -/
def owStep (user_id : Nat) (user_roles : List Nat) (everyone_role_id : Nat)
    (acc : OwAcc) (o : Overwrite) : OwAcc :=
  if o.otype = 0 then
    (if o.id = everyone_role_id then
      { acc with permissions := applyOverwrite acc.permissions o.deny o.allow }
    else if o.id ∈ user_roles then
      { acc with
        role_deny := acc.role_deny ||| o.deny
        role_allow := acc.role_allow ||| o.allow }
    else acc)
  else if o.otype = 1 ∧ o.id = user_id then
    { acc with
      member_deny := o.deny
      member_allow := o.allow
      has_member_overwrite := true }
  else acc

/-- Embedding of utils.permissions.compute_channel_permissions. -/
def compute_channel_permissions (user_id base_permissions : Nat)
    (channel_overwrites : List Overwrite) (user_roles : List Nat)
    (everyone_role_id : Nat) : Nat :=
  if base_permissions &&& ADMINISTRATOR ≠ 0 then ALL_PERMISSIONS
  else
    let acc := channel_overwrites.foldl (owStep user_id user_roles everyone_role_id)
      { permissions := base_permissions, role_allow := 0, role_deny := 0,
        member_allow := 0, member_deny := 0, has_member_overwrite := false }
    let p := applyOverwrite acc.permissions acc.role_deny acc.role_allow
    if acc.has_member_overwrite then
      applyOverwrite p acc.member_deny acc.member_allow
    else p

/-- The @everyone overwrite of the channel. -/
def isEveryoneOw (everyone_role_id : Nat) (o : Overwrite) : Bool :=
  o.otype == 0 && o.id == everyone_role_id

/-- The member-specific overwrite for this user. -/
def isMemberOwFor (user_id : Nat) (o : Overwrite) : Bool :=
  o.otype == 1 && o.id == user_id

/-- A role overwrite applicable to this user (the @everyone overwrite is
handled by its own step). -/
def isUserRoleOw (user_roles : List Nat) (everyone_role_id : Nat)
    (o : Overwrite) : Bool :=
  o.otype == 0 && o.id != everyone_role_id && user_roles.contains o.id

def orDeny (l : List Overwrite) : Nat := l.foldl (fun a o => a ||| o.deny) 0

def orAllow (l : List Overwrite) : Nat := l.foldl (fun a o => a ||| o.allow) 0

/-- Channel permissions as the spec words them: if base has ADMINISTRATOR
return all-ones; otherwise apply, in this fixed order, the @everyone
overwrite (clear its denies then set its allows), then the union of all
applicable role-overwrite denies cleared followed by the union of their
allows set, then the member-specific overwrite. -/
def spec_channel_permissions (user_id base : Nat) (ows : List Overwrite)
    (user_roles : List Nat) (everyone_role_id : Nat) : Nat :=
  if base &&& ADMINISTRATOR ≠ 0 then ALL_PERMISSIONS
  else
    let p := match ows.find? (isEveryoneOw everyone_role_id) with
      | some o => applyOverwrite base o.deny o.allow
      | none => base
    let roleOws := ows.filter (isUserRoleOw user_roles everyone_role_id)
    let p := applyOverwrite p (orDeny roleOws) (orAllow roleOws)
    match ows.find? (isMemberOwFor user_id) with
    | some o => applyOverwrite p o.deny o.allow
    | none => p

theorem foldl_lor_shift (f : Overwrite → Nat) :
    ∀ (l : List Overwrite) (a : Nat),
      l.foldl (fun x o => x ||| f o) a = a ||| l.foldl (fun x o => x ||| f o) 0 := by
  intro l
  induction l with
  | nil => intro a; simp
  | cons o rest ih =>
      intro a
      simp only [List.foldl_cons]
      rw [ih (a ||| f o), ih (0 ||| f o)]
      simp [Nat.lor_assoc]

theorem orAllow_cons (o : Overwrite) (m : List Overwrite) :
    orAllow (o :: m) = o.allow ||| orAllow m := by
  simp only [orAllow, List.foldl_cons]
  rw [foldl_lor_shift (fun o => o.allow) m (0 ||| o.allow)]
  simp

theorem orDeny_cons (o : Overwrite) (m : List Overwrite) :
    orDeny (o :: m) = o.deny ||| orDeny m := by
  simp only [orDeny, List.foldl_cons]
  rw [foldl_lor_shift (fun o => o.deny) m (0 ||| o.deny)]
  simp

/-- Closed form of the overwrite loop: the permissions field has the
everyone-overwrites applied in order, the role fields accumulate the
applicable role overwrites by OR, and the member fields hold the last
member overwrite for the user. -/
theorem owFold_eq (user_id : Nat) (user_roles : List Nat) (everyone_role_id : Nat) :
    ∀ (ows : List Overwrite) (acc : OwAcc),
      ows.foldl (owStep user_id user_roles everyone_role_id) acc =
        { permissions := (ows.filter (isEveryoneOw everyone_role_id)).foldl
            (fun q o => applyOverwrite q o.deny o.allow) acc.permissions
          role_allow := acc.role_allow |||
            orAllow (ows.filter (isUserRoleOw user_roles everyone_role_id))
          role_deny := acc.role_deny |||
            orDeny (ows.filter (isUserRoleOw user_roles everyone_role_id))
          member_allow := (ows.filter (isMemberOwFor user_id)).foldl
            (fun _ o => o.allow) acc.member_allow
          member_deny := (ows.filter (isMemberOwFor user_id)).foldl
            (fun _ o => o.deny) acc.member_deny
          has_member_overwrite := (ows.filter (isMemberOwFor user_id)).foldl
            (fun _ _ => true) acc.has_member_overwrite } := by
  intro ows
  induction ows with
  | nil =>
      intro acc
      simp [orAllow, orDeny]
  | cons o rest ih =>
      intro acc
      simp only [List.foldl_cons]
      rw [ih (owStep user_id user_roles everyone_role_id acc o)]
      by_cases h0 : o.otype = 0
      · by_cases hev : o.id = everyone_role_id
        · simp [owStep, h0, hev, List.filter_cons, isEveryoneOw, isUserRoleOw,
            isMemberOwFor]
        · by_cases hmem : o.id ∈ user_roles
          · simp only [owStep, if_pos h0, if_neg hev, if_pos hmem]
            simp [List.filter_cons, isEveryoneOw, isUserRoleOw, isMemberOwFor,
              h0, hev, hmem, orAllow_cons, orDeny_cons, Nat.lor_assoc]
          · simp [owStep, h0, hev, hmem, List.filter_cons, isEveryoneOw,
              isUserRoleOw, isMemberOwFor]
      · by_cases hm : o.otype = 1 ∧ o.id = user_id
        · simp [owStep, h0, hm, List.filter_cons, isEveryoneOw, isUserRoleOw,
            isMemberOwFor, hm.1, hm.2]
        · simp [owStep, h0, hm, List.filter_cons, isEveryoneOw, isUserRoleOw,
            isMemberOwFor]

theorem find?_eq_head_filter {α : Type} (p : α → Bool) :
    ∀ l : List α, l.find? p = (l.filter p).head? := by
  intro l
  induction l with
  | nil => rfl
  | cons x rest ih =>
      cases hx : p x with
      | true => simp [List.find?_cons, List.filter_cons, hx]
      | false =>
          rw [List.find?_cons, List.filter_cons, hx]
          simpa using ih

theorem short_filter_cases {α : Type} (p : α → Bool) (l : List α)
    (h : l.countP p ≤ 1) :
    l.filter p = [] ∨ ∃ x, l.filter p = [x] := by
  rw [List.countP_eq_length_filter] at h
  cases hf : l.filter p with
  | nil => exact Or.inl rfl
  | cons x t =>
      cases t with
      | nil => exact Or.inr ⟨x, rfl⟩
      | cons y t2 =>
          exfalso
          rw [hf] at h
          simp [List.length_cons] at h

theorem perm_short_eq {α : Type} {l l2 : List α} (h : l.Perm l2)
    (hl : l.length ≤ 1) : l = l2 := by
  cases l with
  | nil =>
      cases l2 with
      | nil => rfl
      | cons y t =>
          have := h.length_eq
          simp at this
  | cons x t =>
      cases t with
      | nil => exact (List.perm_singleton.mp h.symm).symm
      | cons y t2 => simp at hl

theorem orDeny_perm {l l2 : List Overwrite} (h : l.Perm l2) :
    orDeny l = orDeny l2 := by
  induction h with
  | nil => rfl
  | cons x _ ih => rw [orDeny_cons, orDeny_cons, ih]
  | swap x y l =>
      rw [orDeny_cons, orDeny_cons, orDeny_cons, orDeny_cons,
        ← Nat.lor_assoc, ← Nat.lor_assoc, Nat.lor_comm y.deny x.deny]
  | trans _ _ ih1 ih2 => rw [ih1, ih2]

theorem orAllow_perm {l l2 : List Overwrite} (h : l.Perm l2) :
    orAllow l = orAllow l2 := by
  induction h with
  | nil => rfl
  | cons x _ ih => rw [orAllow_cons, orAllow_cons, ih]
  | swap x y l =>
      rw [orAllow_cons, orAllow_cons, orAllow_cons, orAllow_cons,
        ← Nat.lor_assoc, ← Nat.lor_assoc, Nat.lor_comm y.allow x.allow]
  | trans _ _ ih1 ih2 => rw [ih1, ih2]

/-- The single-pass loop of the source equals the spec's fixed-order
description, given the channel carries at most one @everyone overwrite
and at most one member overwrite for this user. -/
theorem compute_eq_spec (user_id base eid : Nat) (ows : List Overwrite)
    (user_roles : List Nat)
    (h1 : ows.countP (isEveryoneOw eid) ≤ 1)
    (h2 : ows.countP (isMemberOwFor user_id) ≤ 1) :
    compute_channel_permissions user_id base ows user_roles eid =
      spec_channel_permissions user_id base ows user_roles eid := by
  unfold compute_channel_permissions spec_channel_permissions
  by_cases hadm : base &&& ADMINISTRATOR ≠ 0
  · rw [if_pos hadm, if_pos hadm]
  · rw [if_neg hadm, if_neg hadm]
    rw [owFold_eq]
    rw [find?_eq_head_filter, find?_eq_head_filter]
    rcases short_filter_cases _ ows h1 with hev | ⟨x, hev⟩ <;> rw [hev] <;>
      rcases short_filter_cases _ ows h2 with hmem | ⟨y, hmem⟩ <;> rw [hmem] <;>
      simp [List.head?]

/-- The loop result does not depend on the order of the overwrite list,
under the same at-most-one conditions. -/
theorem compute_perm_inv (user_id base eid : Nat) (ows ows2 : List Overwrite)
    (user_roles : List Nat)
    (h1 : ows.countP (isEveryoneOw eid) ≤ 1)
    (h2 : ows.countP (isMemberOwFor user_id) ≤ 1)
    (hp : ows.Perm ows2) :
    compute_channel_permissions user_id base ows2 user_roles eid =
      compute_channel_permissions user_id base ows user_roles eid := by
  have h1b : ows2.countP (isEveryoneOw eid) ≤ 1 := by
    rw [← hp.countP_eq]
    exact h1
  have h2b : ows2.countP (isMemberOwFor user_id) ≤ 1 := by
    rw [← hp.countP_eq]
    exact h2
  rw [compute_eq_spec user_id base eid ows user_roles h1 h2,
      compute_eq_spec user_id base eid ows2 user_roles h1b h2b]
  have hevf : ows.filter (isEveryoneOw eid) = ows2.filter (isEveryoneOw eid) :=
    perm_short_eq (hp.filter _)
      (by rw [← List.countP_eq_length_filter]; exact h1)
  have hmemf : ows.filter (isMemberOwFor user_id) =
      ows2.filter (isMemberOwFor user_id) :=
    perm_short_eq (hp.filter _)
      (by rw [← List.countP_eq_length_filter]; exact h2)
  have hrd : orDeny (ows.filter (isUserRoleOw user_roles eid)) =
      orDeny (ows2.filter (isUserRoleOw user_roles eid)) :=
    orDeny_perm (hp.filter _)
  have hra : orAllow (ows.filter (isUserRoleOw user_roles eid)) =
      orAllow (ows2.filter (isUserRoleOw user_roles eid)) :=
    orAllow_perm (hp.filter _)
  unfold spec_channel_permissions
  rw [find?_eq_head_filter, find?_eq_head_filter, find?_eq_head_filter,
      find?_eq_head_filter, hevf, hmemf]
  simp only [hrd, hra]

/-- C8: with at most one @everyone overwrite and at most one
member-specific overwrite for the user (the shape every real channel
has — the spec speaks of THE @everyone overwrite and THE member
overwrite), compute_channel_permissions equals the spec's fixed-order
application — @everyone denies cleared then allows set, then the union
of the applicable role denies cleared and the union of their allows set,
then the member overwrite — independently of the order of the overwrite
list; and whenever the OR of the user's role permissions carries
ADMINISTRATOR, compute_base_permissions and the channel computation on
that base both return the all-ones 64-bit mask. -/
theorem c8_channel_permissions_order (user_id base eid : Nat)
    (ows : List Overwrite) (user_roles : List Nat)
    (h1 : ows.countP (isEveryoneOw eid) ≤ 1)
    (h2 : ows.countP (isMemberOwFor user_id) ≤ 1) :
    (compute_channel_permissions user_id base ows user_roles eid =
      spec_channel_permissions user_id base ows user_roles eid) ∧
    (∀ ows2, ows.Perm ows2 →
      compute_channel_permissions user_id base ows2 user_roles eid =
        compute_channel_permissions user_id base ows user_roles eid) ∧
    (∀ (ur : List Nat) (gr : List (Nat × Nat)) (geid : Nat),
      basePermAccum ur gr geid &&& ADMINISTRATOR ≠ 0 →
      compute_base_permissions ur gr geid = ALL_PERMISSIONS ∧
      compute_channel_permissions user_id (compute_base_permissions ur gr geid)
        ows user_roles eid = ALL_PERMISSIONS) := by
  refine ⟨compute_eq_spec user_id base eid ows user_roles h1 h2, ?_, ?_⟩
  · intro ows2 hp
    exact compute_perm_inv user_id base eid ows ows2 user_roles h1 h2 hp
  · intro ur gr geid hadm
    have hb : compute_base_permissions ur gr geid = ALL_PERMISSIONS := by
      unfold compute_base_permissions
      rw [if_pos hadm]
    refine ⟨hb, ?_⟩
    rw [hb]
    unfold compute_channel_permissions
    rw [if_pos (by decide)]

/-- C8 witness: the theorem applied to a concrete channel with one
@everyone overwrite, one role overwrite and one member overwrite. -/
theorem c8_channel_permissions_order_witness :
    compute_channel_permissions 1 1024
      [{ id := 5, otype := 0, allow := 8, deny := 1024 },
       { id := 2, otype := 0, allow := 16, deny := 0 },
       { id := 1, otype := 1, allow := 32, deny := 0 }] [2] 5 =
    spec_channel_permissions 1 1024
      [{ id := 5, otype := 0, allow := 8, deny := 1024 },
       { id := 2, otype := 0, allow := 16, deny := 0 },
       { id := 1, otype := 1, allow := 32, deny := 0 }] [2] 5 :=
  (c8_channel_permissions_order 1 1024 5
    [{ id := 5, otype := 0, allow := 8, deny := 1024 },
     { id := 2, otype := 0, allow := 16, deny := 0 },
     { id := 1, otype := 1, allow := 32, deny := 0 }] [2]
    (by decide) (by decide)).1

/-! ### Orchestrator (ingest/run.py)

`_run_pipeline` in full mode (no channel_id, no guild_id filter) loops
`for account in self.settings.accounts: await self._process_account(account)`
with no try/except; `_process_account` loops the account's guilds, and on an
exception from `process_guild` logs and re-raises (`except Exception: raise`).
We model `process_guild` as an oracle `pg : Nat → Nat → Option Nat` on
(account name, guild id): `some e` means it raised error `e`, `none` means
success.  A run returns the propagated error (if any) together with the trace
of (account, guild) pairs actually attempted, in order. -/

structure AccountConfig where
  name : Nat
  guilds : List Nat
  deriving DecidableEq

/-- The guild loop of `_process_account` (full mode: `filter_guild_id` is
None, so the `continue` guard never fires).  The exception from
`process_guild` is re-raised, ending the loop at the failing guild. -/
def processGuildsSeq (pg : Nat → Nat → Option Nat) (name : Nat) :
    List Nat → Option Nat × List (Nat × Nat)
  | [] => (none, [])
  | g :: rest =>
      match pg name g with
      | some e => (some e, [(name, g)])
      | none =>
          let r := processGuildsSeq pg name rest
          (r.1, (name, g) :: r.2)

def process_account (pg : Nat → Nat → Option Nat) (a : AccountConfig) :
    Option Nat × List (Nat × Nat) :=
  processGuildsSeq pg a.name a.guilds

/-- `_run_pipeline` in full mode: the account loop has no exception
handler, so an error from `_process_account` propagates and ends the run. -/
def run_pipeline_full (pg : Nat → Nat → Option Nat) :
    List AccountConfig → Option Nat × List (Nat × Nat)
  | [] => (none, [])
  | a :: rest =>
      let r := process_account pg a
      match r.1 with
      | some e => (some e, r.2)
      | none =>
          let r2 := run_pipeline_full pg rest
          (r2.1, r.2 ++ r2.2)

/-- C9 counterexample: an error in the FIRST account's first guild ends the
whole run — the second account's guild (2, 20) is never attempted, so the
orchestrator does NOT "continue processing the subsequent accounts". -/
theorem c9_abort_counterexample :
    run_pipeline_full (fun n g => if n == 1 && g == 10 then some 7 else none)
      [{ name := 1, guilds := [10, 11] }, { name := 2, guilds := [20] }] =
      (some 7, [(1, 10)]) ∧
    ((2 : Nat), (20 : Nat)) ∉ [((1 : Nat), (10 : Nat))] :=
  ⟨rfl, by decide⟩

/-- C9 (amended): in full mode a non-recoverable error from process_guild
aborts the ENTIRE run, not just the failing account: if every account
before `a` succeeds and `a` raises `e`, the pipeline re-raises `e` and the
attempted-guild trace is exactly the successful accounts' guilds followed
by `a`'s guilds up to the failure — nothing of the accounts after `a` is
processed. -/
theorem c9_error_aborts_run_amended (pg : Nat → Nat → Option Nat)
    (pre post : List AccountConfig) (a : AccountConfig) (e : Nat)
    (hpre : ∀ b ∈ pre, (process_account pg b).1 = none)
    (ha : (process_account pg a).1 = some e) :
    run_pipeline_full pg (pre ++ a :: post) =
      (some e,
        pre.foldr (fun b acc => (process_account pg b).2 ++ acc)
          (process_account pg a).2) := by
  induction pre with
  | nil =>
      simp only [List.nil_append, List.foldr_nil, run_pipeline_full, ha]
  | cons b rest ih =>
      have hb : (process_account pg b).1 = none :=
        hpre b (List.mem_cons_self b rest)
      have hrest : ∀ c ∈ rest, (process_account pg c).1 = none :=
        fun c hc => hpre c (List.mem_cons_of_mem b hc)
      simp only [List.cons_append, List.foldr_cons, run_pipeline_full, hb,
        List.append_eq, ih hrest]

/-- C9 amended witness: account 1 succeeds, account 2 fails at guild 20,
account 3 is never reached. -/
theorem c9_error_aborts_run_amended_witness :
    run_pipeline_full (fun n g => if n == 2 && g == 20 then some 7 else none)
      ([{ name := 1, guilds := [10] }] ++
        { name := 2, guilds := [20, 21] } :: [{ name := 3, guilds := [30] }]) =
      (some 7, [(1, 10), (2, 20)]) := by
  rw [c9_error_aborts_run_amended
    (fun n g => if n == 2 && g == 20 then some 7 else none)
    [{ name := 1, guilds := [10] }] [{ name := 3, guilds := [30] }]
    { name := 2, guilds := [20, 21] } 7 (by decide) (by decide)]
  rfl

/-! ### Channel repository (db/repositories/channel_repository.py)

`upsert_channel` issues an INSERT ... ON CONFLICT (channel_id) DO UPDATE
whose `set_` dict names exactly name, topic, position, last_message_id,
thread_metadata, message_count and raw.  The channels table is a function
from channel_id; a `ChannelRow` carries every column of the VALUES list
(the `type` column is Lean field `ctype`); nullable columns are
`Option Json`, absent by default. -/

structure ChannelRow where
  channel_id : Nat
  guild_id : Nat
  ctype : Option Json := none
  name : Option Json := none
  topic : Option Json := none
  position : Option Json := none
  permission_overwrites : Option Json := none
  parent_id : Option Json := none
  nsfw : Option Json := none
  last_message_id : Option Json := none
  bitrate : Option Json := none
  user_limit : Option Json := none
  rtc_region : Option Json := none
  video_quality_mode : Option Json := none
  rate_limit_per_user : Option Json := none
  owner_id : Option Json := none
  thread_metadata : Option Json := none
  message_count : Option Json := none
  member_count : Option Json := none
  total_message_sent : Option Json := none
  default_auto_archive_duration : Option Json := none
  default_thread_rate_limit_per_user : Option Json := none
  available_tags : Option Json := none
  applied_tags : Option Json := none
  default_reaction_emoji : Option Json := none
  default_sort_order : Option Json := none
  default_forum_layout : Option Json := none
  flags : Option Json := none
  recipients : Option Json := none
  icon : Option Json := none
  application_id : Option Json := none
  managed : Option Json := none
  last_pin_timestamp : Option Json := none
  raw : Option Json := none

/-- INSERT ... ON CONFLICT (channel_id) DO UPDATE SET name, topic,
position, last_message_id, thread_metadata, message_count, raw. -/
def upsert_channel (db : Nat → Option ChannelRow) (c : ChannelRow) :
    Nat → Option ChannelRow :=
  fun k =>
    if k = c.channel_id then
      match db c.channel_id with
      | none => some c
      | some old =>
          some { old with
            name := c.name
            topic := c.topic
            position := c.position
            last_message_id := c.last_message_id
            thread_metadata := c.thread_metadata
            message_count := c.message_count
            raw := c.raw }
    else db k

/-- C10: when the channel_id is already stored, upsert_channel replaces
exactly the columns name, topic, position, last_message_id,
thread_metadata, message_count and raw with the new row's values and keeps
every other column of the stored row (the result is the OLD row with only
those seven fields overwritten), and rows under every other key are
untouched. -/
theorem c10_upsert_channel_frame (db : Nat → Option ChannelRow)
    (c old : ChannelRow) (h : db c.channel_id = some old) :
    upsert_channel db c c.channel_id =
      some { old with
        name := c.name
        topic := c.topic
        position := c.position
        last_message_id := c.last_message_id
        thread_metadata := c.thread_metadata
        message_count := c.message_count
        raw := c.raw } ∧
    ∀ k, k ≠ c.channel_id → upsert_channel db c k = db k := by
  constructor
  · unfold upsert_channel
    rw [if_pos rfl, h]
  · intro k hk
    unfold upsert_channel
    rw [if_neg hk]

/-- C10 witness: a stored row at channel_id 5 with a parent and an owner;
after upserting a new observation, the seven listed columns take the new
values (checked by the theorem's first conjunct at these inputs). -/
theorem c10_upsert_channel_frame_witness :
    upsert_channel
      (fun k => if k = 5 then
        some { channel_id := 5, guild_id := 1,
               parent_id := some (Json.num 9),
               owner_id := some (Json.num 4),
               name := some (Json.str [nulChar]) }
        else none)
      { channel_id := 5, guild_id := 1, name := some (Json.str []),
        message_count := some (Json.num 3) } 5 =
      some { channel_id := 5, guild_id := 1,
             parent_id := some (Json.num 9),
             owner_id := some (Json.num 4),
             name := some (Json.str []),
             topic := none, position := none, last_message_id := none,
             thread_metadata := none,
             message_count := some (Json.num 3), raw := none } :=
  (c10_upsert_channel_frame
    (fun k => if k = 5 then
      some { channel_id := 5, guild_id := 1,
             parent_id := some (Json.num 9),
             owner_id := some (Json.num 4),
             name := some (Json.str [nulChar]) }
      else none)
    { channel_id := 5, guild_id := 1, name := some (Json.str []),
      message_count := some (Json.num 3) }
    { channel_id := 5, guild_id := 1,
      parent_id := some (Json.num 9),
      owner_id := some (Json.num 4),
      name := some (Json.str [nulChar]) }
    rfl).1

end DiscordArchive
